import Mathlib

/-!
# Per-device migration engine (`devices.go`, `roles.go`, `utils.go`)

A shallow embedding of the per-device orchestration of the ClearBlade
IoT-Core to IoT-Enterprise migration tool.

* Go `error` values are `Option String`: `none` is `nil`, `some msg` is an
  error whose `Error()` text is `msg`.
* Calls on `cbDevClient` are answered by a `Remote`, a function from the
  calls answered so far and the call being made to its result, so a result
  may depend on the arguments and on everything that happened before.
* `World` carries what one run of `migrateDevice` leaves behind: the remote
  calls in the order they were issued (with their results) and the values
  sent on `resultC` in the order they were sent.
* A run that panics or exits (`panic`, a failed type assertion,
  `log.Fatalln`) ends in `Res.abort` with the world reached at that point.
-/

namespace Migration

/-! ## Strings (`strings.Contains`, `strings.Replace`) -/

/-- Character-list form of `strings.Contains`: `sub` occurs in the text. -/
def containsChars : List Char → List Char → Bool
  | [], sub => sub.isEmpty
  | c :: cs, sub => sub.isPrefixOf (c :: cs) || containsChars cs sub

/-- Go `strings.Contains(s, substr)`. -/
def stringsContains (s substr : String) : Bool :=
  containsChars s.data substr.data

/-- Character-list form of `strings.Replace(s, old, new, -1)` for a
non-empty `old`: scan left to right, replace each non-overlapping occurrence;
`skip` counts the characters of a matched occurrence still to be dropped. -/
def replaceChars (old new : List Char) : Nat → List Char → List Char
  | _, [] => []
  | skip + 1, _ :: cs => replaceChars old new skip cs
  | 0, c :: cs =>
    if old.isPrefixOf (c :: cs) then new ++ replaceChars old new (old.length - 1) cs
    else c :: replaceChars old new 0 cs

/-- Go `strings.Replace(s, old, new, -1)` with a non-empty `old` (the only
use in the program has `old = topicToken`). -/
def stringsReplace (s old new : String) : String :=
  ⟨replaceChars old.data new.data 0 s.data⟩

/-! ## Data model -/

/-- Go `error`: `none` is `nil`. -/
abbrev GoError := Option String

/-- `cbiotcore.PublicKeyCredential`. -/
structure PublicKeyCredential where
  Format : String
  Key : String
  deriving DecidableEq, Repr

/-- `cbiotcore.DeviceCredential`. -/
structure DeviceCredential where
  ExpirationTime : String
  PublicKey : PublicKeyCredential
  deriving DecidableEq, Repr

/-- The fields of `cbiotcore.Device` the engine reads. -/
structure Device where
  Id : String
  Blocked : Bool
  Credentials : List DeviceCredential
  deriving DecidableEq, Repr

/-- The fields of `DeviceMigratorArgs` the engine reads. -/
structure DeviceMigratorArgs where
  cbSystemKey : String
  columnsCsvFile : String
  deviceType : String
  updatePublicKeys : Bool
  createDeviceRole : Bool
  deriving DecidableEq, Repr

/-- The value sent on `resultC`; `ErrorLog{}` is the success marker. -/
structure ErrorLog where
  DeviceId : String
  Context : String
  Error : GoError
  deriving DecidableEq, Repr

/-- Go `ErrorLog{}`: all fields zero, `Error == nil`. -/
def ErrorLog.empty : ErrorLog := ⟨"", "", none⟩

/-- The key-format constants of the destination SDK (`cb.RS256`, ...). -/
inductive KeyFormat where
  | RS256 | RS256_X509 | ES256 | ES256_X509
  deriving DecidableEq, Repr

/-- The permission constants of the destination SDK. -/
inductive Perm where
  | PERM_READ | PERM_CREATE
  deriving DecidableEq, Repr

/-- A value stored in a `map[string]interface{}`. -/
inductive Val where
  | str (s : String)
  | bool (b : Bool)
  | other
  deriving DecidableEq, Repr

/-- Go `map[string]interface{}` as an association list (first binding of a
key is the one looked up). -/
abbrev GoMap := List (String × Val)

/-- An `interface{}` returned by the SDK for a role: untyped `nil`, a
`map[string]interface{}`, or a value of any other dynamic type. -/
inductive Iface where
  | nil
  | map (m : GoMap)
  | other
  deriving DecidableEq, Repr

/-- The query built by `deleteDeviceCreds`. -/
inductive Query where
  | GreaterThanEqualTo (field : String) (value : Int)
  deriving DecidableEq, Repr

/-- The calls the engine makes on `cbDevClient`, with their arguments. -/
inductive Call where
  | CreateDevice (systemKey name : String) (data : GoMap)
  | UpdateDevice (systemKey name : String) (data : GoMap)
  | DeleteDevicePublicKey (systemKey name : String) (q : Query)
  | AddDevicePublicKey (systemKey name key expire : String) (fmt : KeyFormat)
  | CreateRole (systemKey roleName : String)
  | GetRole (systemKey roleName : String)
  | AddTopicToRole (systemKey topic roleId : String) (perm : Perm)
  | AddDeviceToRoles (systemKey name : String) (roles : List String)
  deriving DecidableEq, Repr

/-- What a call returns: the value (only read for roles) and the error. -/
structure Resp where
  val : Iface
  err : GoError
  deriving DecidableEq, Repr

/-- A call together with the result it got. -/
structure Event where
  call : Call
  resp : Resp
  deriving DecidableEq, Repr

/-- The destination platform: the result of a call, given the calls already
answered in this run. -/
abbrev Remote := List Event → Call → Resp

/-- Why a run did not return: a Go panic or a `log.Fatalln` exit. -/
inductive Abort where
  | panic (msg : String)
  | fatal (msg : String)
  deriving DecidableEq, Repr

/-- Observable effects of one run. -/
structure World where
  calls : List Event
  resultC : List ErrorLog
  deriving DecidableEq, Repr

/-- The world before a run starts. -/
def World.init : World := ⟨[], []⟩

/-- Outcome of running a function: it returned `a`, or it aborted. -/
inductive Res (α : Type) where
  | ret (a : α) (w : World)
  | abort (why : Abort) (w : World)
  deriving DecidableEq, Repr

/-- The world a run ended in. -/
def Res.world {α : Type} : Res α → World
  | .ret _ w => w
  | .abort _ w => w

/-- Sequencing: an abort ends the run. -/
def Res.bind {α β : Type} (r : Res α) (f : α → World → Res β) : Res β :=
  match r with
  | .ret a w => f a w
  | .abort why w => .abort why w

/-- Channel send `resultC <- e`. -/
def send (e : ErrorLog) (w : World) : World :=
  { w with resultC := w.resultC ++ [e] }

/-- Issue a call on `cbDevClient` and record it with its result. -/
def remoteCall (env : Remote) (c : Call) (w : World) : Resp × World :=
  let r := env w.calls c
  (r, { w with calls := w.calls ++ [⟨c, r⟩] })

/-- What the run is given from outside: the destination platform, and what
reading the column-mapping CSV file yields (`none` when `getAbsPath`,
`fileExists` or `readCsvFile` end the process with `log.Fatalln`). -/
structure Env where
  remote : Remote
  csv : String → Option (List (List String))

/-! ## `utils.go` -/

/-- Go `transform`. With a column-mapping file, the first record makes the
loop body panic: `reflect.Indirect(reflect.ValueOf(&device))` is a pointer
value, on which `FieldByName` panics, and the right-hand side is evaluated
before `line[1]` is indexed. -/
def transform (env : Env) (device : Device) (deviceType csvFile : String) :
    Except Abort GoMap :=
  let cbDevice : GoMap :=
    [("name", .str device.Id),
     ("enabled", .bool (!device.Blocked)),
     ("type", .str deviceType),
     ("allow_key_auth", .bool false),
     ("allow_certificate_auth", .bool true)]
  if csvFile ≠ "" then
    match env.csv csvFile with
    | none => .error (.fatal "column mapping CSV file cannot be read")
    | some [] => .ok cbDevice
    | some (_ :: _) =>
      .error (.panic "reflect: call of reflect.Value.FieldByName on ptr Value")
  else .ok cbDevice

/-! ## `devices.go` -/

/-- Go `createDevice`. -/
def createDevice (env : Env) (args : DeviceMigratorArgs) (device : Device) (w : World) :
    Res Resp :=
  match transform env device args.deviceType args.columnsCsvFile with
  | .error why => .abort why w
  | .ok data =>
    let (r, w) := remoteCall env.remote (.CreateDevice args.cbSystemKey device.Id data) w
    .ret r w

/-- Go `updateDevice`. -/
def updateDevice (env : Env) (args : DeviceMigratorArgs) (device : Device) (w : World) :
    Res Resp :=
  match transform env device args.deviceType args.columnsCsvFile with
  | .error why => .abort why w
  | .ok data =>
    let (r, w) := remoteCall env.remote (.UpdateDevice args.cbSystemKey device.Id data) w
    .ret r w

/-- Go `createOrUpdateDevice`. -/
def createOrUpdateDevice (env : Env) (args : DeviceMigratorArgs) (device : Device)
    (w : World) : Res GoError :=
  (createDevice env args device w).bind fun r w =>
    match r.err with
    | none => .ret none w
    | some msg =>
      let w :=
        if !stringsContains msg "already exists in system" then
          send ⟨device.Id, "Error when Creating Device", some msg⟩ w
        else w
      (updateDevice env args device w).bind fun r w =>
        match r.err with
        | some msg => .ret (some msg) (send ⟨device.Id, "Error when Patching Device", some msg⟩ w)
        | none => .ret none w

/-- Go `deleteDeviceCreds`. -/
def deleteDeviceCreds (env : Env) (args : DeviceMigratorArgs) (deviceName : String)
    (w : World) : Resp × World :=
  let delQuery := Query.GreaterThanEqualTo "key_format" 0
  remoteCall env.remote (.DeleteDevicePublicKey args.cbSystemKey deviceName delQuery) w

/-- The `switch cred.PublicKey.Format` of `createDeviceCredential`: `none` is
the `default` branch. -/
def keyFormatOf (format : String) : Option KeyFormat :=
  if format = "RSA_PEM" then some .RS256
  else if format = "RSA_X509_PEM" then some .RS256_X509
  else if format = "ES256_PEM" then some .ES256
  else if format = "ES256_X509_PEM" then some .ES256_X509
  else none

/-- Go `createDeviceCredential`. -/
def createDeviceCredential (env : Env) (args : DeviceMigratorArgs) (deviceName : String)
    (cred : DeviceCredential) (w : World) : Res Resp :=
  let expireTime := if cred.ExpirationTime ≠ "1970-01-01T00:00:00Z" then cred.ExpirationTime else ""
  match keyFormatOf cred.PublicKey.Format with
  | none => .abort (.panic "unrecognized escape character") w
  | some keyFormat =>
    let (r, w) := remoteCall env.remote
      (.AddDevicePublicKey args.cbSystemKey deviceName cred.PublicKey.Key expireTime keyFormat) w
    .ret r w

/-- The `for _, cred := range device.Credentials` loop of
`createDeviceCredentials`; `err` is the variable the function returns. -/
def createDeviceCredentialsLoop (env : Env) (args : DeviceMigratorArgs) (device : Device) :
    List DeviceCredential → GoError → World → Res GoError
  | [], err, w => .ret err w
  | cred :: rest, _, w =>
    (createDeviceCredential env args device.Id cred w).bind fun r w =>
      match r.err with
      | some msg =>
        .ret (some msg) (send ⟨device.Id, "Error when creating device credential", some msg⟩ w)
      | none => createDeviceCredentialsLoop env args device rest none w

/-- Go `createDeviceCredentials`. -/
def createDeviceCredentials (env : Env) (args : DeviceMigratorArgs) (device : Device)
    (w : World) : Res GoError :=
  let (r, w) := deleteDeviceCreds env args device.Id w
  match r.err with
  | some msg =>
    .ret (some msg) (send ⟨device.Id, "Error when deleting device credentials", some msg⟩ w)
  | none => createDeviceCredentialsLoop env args device device.Credentials none w

/-! ## `roles.go` -/

/-- Go `topicToken`. -/
def topicToken : String := "{device_id}"

/-- Go `subTopics`. -/
def subTopics : List String :=
  ["/devices/" ++ topicToken ++ "/commands/#", "/devices/" ++ topicToken ++ "/config",
   "/devices/" ++ topicToken ++ "/errors"]

/-- Go `pubTopics`. -/
def pubTopics : List String :=
  ["/devices/" ++ topicToken ++ "/events/#", "/devices/" ++ topicToken ++ "/state"]

/-- The type assertion `role.(map[string]interface{})`: it panics unless the
dynamic type is the map type. -/
def assertMap {α : Type} (role : Iface) (w : World) (k : GoMap → Res α) : Res α :=
  match role with
  | .map m => k m
  | .nil => .abort (.panic "interface conversion: interface \x7b\x7d is nil, not map[string]interface \x7b\x7d") w
  | .other => .abort (.panic "interface conversion: interface \x7b\x7d is not map[string]interface \x7b\x7d") w

/-- Go `createRoleForDevice`. -/
def createRoleForDevice (env : Env) (args : DeviceMigratorArgs) (device : Device)
    (w : World) : Res (GoMap × GoError) :=
  let (r, w) := remoteCall env.remote (.CreateRole args.cbSystemKey device.Id) w
  match r.err with
  | none => assertMap r.val w fun m => .ret (m, none) w
  | some msg =>
    if !stringsContains msg "A role's name must be unique" then
      let w := send ⟨device.Id, "Error when Creating role", some msg⟩ w
      assertMap r.val w fun m => .ret (m, some msg) w
    else
      let (r, w) := remoteCall env.remote (.GetRole args.cbSystemKey device.Id) w
      match r.err with
      | some msg =>
        let w := send ⟨device.Id, "Error when retrieving role", some msg⟩ w
        assertMap r.val w fun m => .ret (m, some msg) w
      | none => assertMap r.val w fun m => .ret (m, none) w

/-- One `for _, topic := range ...` loop of `addTopicsToRole`: `some msg` when
the loop body returned early with that error. -/
def addTopicsLoop (env : Env) (args : DeviceMigratorArgs) (device : Device) (roleId : String)
    (perm : Perm) : List String → World → GoError × World
  | [], w => (none, w)
  | topic :: rest, w =>
    let (r, w) := remoteCall env.remote
      (.AddTopicToRole args.cbSystemKey (stringsReplace topic topicToken device.Id) roleId perm) w
    match r.err with
    | some msg => (some msg, send ⟨device.Id, "Error when adding topic to role", some msg⟩ w)
    | none => addTopicsLoop env args device roleId perm rest w

/-- Go `addTopicsToRole`. -/
def addTopicsToRole (env : Env) (args : DeviceMigratorArgs) (device : Device)
    (roleId : String) (w : World) : Res GoError :=
  match addTopicsLoop env args device roleId .PERM_READ subTopics w with
  | (some msg, w) => .ret (some msg) w
  | (none, w) =>
    match addTopicsLoop env args device roleId .PERM_CREATE pubTopics w with
    | (some msg, w) => .ret (some msg) w
    | (none, w) => .ret none w

/-- Go `addDeviceToRole`. -/
def addDeviceToRole (env : Env) (args : DeviceMigratorArgs) (device : Device) (w : World) :
    Res GoError :=
  let (r, w) := remoteCall env.remote
    (.AddDeviceToRoles args.cbSystemKey device.Id [device.Id]) w
  match r.err with
  | some msg =>
    if !stringsContains msg "duplicate key value violates unique constraint" then
      .ret (some msg) (send ⟨device.Id, "Error when Creating role", some msg⟩ w)
    else .ret none w
  | none => .ret none w

/-- The type assertion `val.(string)`. -/
def assertString {α : Type} (v : Val) (w : World) (k : String → Res α) : Res α :=
  match v with
  | .str s => k s
  | _ => .abort (.panic "interface conversion: interface \x7b\x7d is not string") w

/-- The role-id extraction of `migrateDevice`: key `role_id`, else key `ID`,
else the zero string. -/
def roleIdOf {α : Type} (role : GoMap) (w : World) (k : String → Res α) : Res α :=
  match role.lookup "role_id" with
  | some val => assertString val w k
  | none =>
    match role.lookup "ID" with
    | some val => assertString val w k
    | none => k ""

/-- Go `migrateDevice`. The value is `()`; what matters is the world. -/
def migrateDevice (env : Env) (args : DeviceMigratorArgs) (device : Device) (w : World) :
    Res Unit :=
  (createOrUpdateDevice env args device w).bind fun err w =>
    if err = none ∧ args.updatePublicKeys = true ∧ device.Credentials.length > 0 then
      (createDeviceCredentials env args device w).bind fun err w =>
        match err with
        | some _ => .ret () w
        | none =>
          if args.createDeviceRole then
            (createRoleForDevice env args device w).bind fun (role, err) w =>
              match err with
              | some _ => .ret () w
              | none =>
                roleIdOf role w fun roleId =>
                  (addTopicsToRole env args device roleId w).bind fun err w =>
                    match err with
                    | some _ => .ret () w
                    | none =>
                      (addDeviceToRole env args device w).bind fun err w =>
                        match err with
                        | some _ => .ret () w
                        | none => .ret () (send ErrorLog.empty w)
          else .ret () (send ErrorLog.empty w)
    else
      match err with
      | none => .ret () (send ErrorLog.empty w)
      | some _ => .ret () w

/-! ## `devices.go`: batched fetch of the devices named in a CSV file -/

/-- Go slice expression `s[lo:hi]`: `none` is the run-time panic "slice bounds
out of range". The upper bound is checked against the length; wherever the
program reaches a slice expression with an explicit `hi`, that `hi` is at most
`len(s)`, so the larger capacity bound of Go slices never comes into play. -/
def goSlice {α : Type} (s : List α) (lo hi : Int) : Option (List α) :=
  if 0 ≤ lo ∧ lo ≤ hi ∧ hi ≤ s.length then some ((s.take hi.toNat).drop lo.toNat) else none

/-- Two's-complement wrap-around of 64-bit `int` arithmetic. -/
def wrapInt64 (x : Int) : Int :=
  (x + 9223372036854775808) % 18446744073709551616 - 9223372036854775808

/-- What `fetchDevicesFromCSV` is given from outside. Every answer may depend
on the batches handed to `fetchDeviceList` before (`before`).
* `registryPath`: `getCBRegistryPath()`, `none` when `getCBProjectID` ends the
  process with `log.Fatalln`;
* `list`: `service.List(parent).DeviceIds(ids...).Do()`, devices or an error;
* `barFinish`, `barClose`: the error, if any, of `bar.Finish()` and
  `bar.Close()` on the progress bar created for the batch;
* `spinnerAdd`: the error, if any, of `spinner.Add(1)` after the batches
  fetched so far;
* `intOfInf`: the `int` the platform yields for `int(+Inf)`, which Go leaves
  implementation-dependent. -/
structure Source where
  registryPath : List (List String) → Option String
  list : List (List String) → String → List String → Except String (List Device)
  barFinish : List (List String) → List String → Option String
  barClose : List (List String) → List String → Option String
  spinnerAdd : List (List String) → Option String
  intOfInf : Int

/-- Go `fetchDeviceList`, called after the batches `before`: `.error` when it
ends the process, otherwise what it returns, an error or the devices. The
request is made before the progress bar is finished. -/
def fetchDeviceList (src : Source) (before : List (List String)) (deviceIds : List String) :
    Except Abort (Except String (List Device)) :=
  match src.registryPath before with
  | none => .error (.fatal "Error when opening json file")
  | some parent =>
    let resp := src.list before parent deviceIds
    match src.barFinish before deviceIds with
    | some e => .error (.fatal ("Unable to finish progressbar: " ++ e))
    | none =>
      match src.barClose before deviceIds with
      | some e => .error (.fatal ("Unable to Close progressbar: " ++ e))
      | none => .ok resp

/-- What a run of `fetchDevicesFromCSV` leaves behind: the id batches handed
to `fetchDeviceList` in the order they were sliced, the devices collected, and
why the run stopped early, if it did. -/
structure FetchRun where
  requested : List (List String)
  devices : List Device
  aborted : Option Abort
  deriving DecidableEq, Repr

/-- The `batchDeviceIds` that iteration `i` of the loop of
`fetchDevicesFromCSV` slices out of `deviceIds`; `none` is the slice panic. -/
def batchDeviceIds (pageSize : Int) (deviceIds : List String) (maxIterations : Int) (i : Nat) :
    Option (List String) :=
  if (i : Int) = maxIterations - 1 then goSlice deviceIds (1 + i * pageSize) deviceIds.length
  else if i = 0 then goSlice deviceIds (i * pageSize) (pageSize + i * pageSize)
  else goSlice deviceIds (1 + i * pageSize) (pageSize + i * pageSize)

/-- The loop `for i := 0; i < maxIterations; i++` of `fetchDevicesFromCSV`,
over the values of `i` still to run. -/
def fetchBatchLoop (src : Source) (pageSize : Int) (deviceIds : List String)
    (maxIterations : Int) : List Nat → FetchRun → FetchRun
  | [], run => run
  | i :: rest, run =>
    match batchDeviceIds pageSize deviceIds maxIterations i with
    | none => { run with aborted := some (.panic "slice bounds out of range") }
    | some batch =>
      match fetchDeviceList src run.requested batch with
      | .error why =>
        { requested := run.requested ++ [batch], devices := run.devices, aborted := some why }
      | .ok (.error msg) =>
        { requested := run.requested ++ [batch], devices := run.devices,
          aborted := some (.fatal ("Error fetching device list: " ++ msg)) }
      | .ok (.ok devicesSubset) =>
        match src.spinnerAdd (run.requested ++ [batch]) with
        | some e =>
          { requested := run.requested ++ [batch], devices := run.devices ++ devicesSubset,
            aborted := some (.fatal ("Unable to add to spinner: " ++ e)) }
        | none =>
          fetchBatchLoop src pageSize deviceIds maxIterations rest
            { requested := run.requested ++ [batch], devices := run.devices ++ devicesSubset,
              aborted := none }

/-- Go `fetchDevicesFromCSV`, from the point where `deviceIds` (the first
column of the CSV file) has been read; `pageSize` is `Args.pageSize`, any
`int`. `int(math.Floor(float64(len)/float64(pageSize)))` is the floor quotient
when `pageSize` is not zero (exact for every list length that fits in memory)
and `int(+Inf)` when it is zero; `int` is 64 bits wide. -/
def fetchDevicesFromCSV (src : Source) (pageSize : Int) (deviceIds : List String) : FetchRun :=
  if (deviceIds.length : Int) > pageSize then
    let quotient : Int :=
      if pageSize = 0 then src.intOfInf else Int.fdiv deviceIds.length pageSize
    let maxIterations := wrapInt64 (quotient + 1)
    fetchBatchLoop src pageSize deviceIds maxIterations (List.range maxIterations.toNat)
      ⟨[], [], none⟩
  else
    match fetchDeviceList src [] deviceIds with
    | .error why => ⟨[deviceIds], [], some why⟩
    | .ok (.error msg) =>
      ⟨[deviceIds], [], some (.fatal ("Error fetching device list: " ++ msg))⟩
    | .ok (.ok devices) => ⟨[deviceIds], devices, none⟩

/-! ## Vocabulary of the statements -/

/-- The event recorded when call `c` is issued after the calls `h`. -/
def eventOf (env : Env) (h : List Event) (c : Call) : Event := ⟨c, env.remote h c⟩

/-- The `ErrorLog` sent when `updateDevice` returns `err`: none for `nil`. -/
def patchLogs (device : Device) (err : GoError) : List ErrorLog :=
  match err with
  | some msg => [⟨device.Id, "Error when Patching Device", some msg⟩]
  | none => []

/-- The call `deleteDeviceCreds` issues for a device. -/
def deleteCall (args : DeviceMigratorArgs) (device : Device) : Call :=
  .DeleteDevicePublicKey args.cbSystemKey device.Id (.GreaterThanEqualTo "key_format" 0)

/-- The call belongs to the role provisioner. -/
def Call.isRoleCall : Call → Bool
  | .CreateRole _ _ => true
  | .GetRole _ _ => true
  | .AddTopicToRole _ _ _ _ => true
  | .AddDeviceToRoles _ _ _ => true
  | _ => false

/-- The call creates a credential. -/
def Call.isCredentialCreate : Call → Bool
  | .AddDevicePublicKey _ _ _ _ _ => true
  | _ => false

/-- Event `e` is the credential-create call of device `name` for `cred`. -/
def IsCreateCallFor (args : DeviceMigratorArgs) (name : String) (e : Event)
    (cred : DeviceCredential) : Prop :=
  ∃ ex f, e.call = .AddDevicePublicKey args.cbSystemKey name cred.PublicKey.Key ex f

/-- `createDeviceCredential` returns after issuing exactly one call, the
`AddDevicePublicKey` with the credential's key material, expiration `ex` and
destination format `f`, and sends nothing. -/
def IssuesKey (env : Env) (args : DeviceMigratorArgs) (name : String)
    (cred : DeviceCredential) (w : World) (ex : String) (f : KeyFormat) : Prop :=
  createDeviceCredential env args name cred w =
    .ret (env.remote w.calls
        (.AddDevicePublicKey args.cbSystemKey name cred.PublicKey.Key ex f))
      { calls := w.calls ++
          [eventOf env w.calls
            (.AddDevicePublicKey args.cbSystemKey name cred.PublicKey.Key ex f)],
        resultC := w.resultC }

/-- The four recognized source key formats. -/
def recognizedFormats : List String :=
  ["RSA_PEM", "RSA_X509_PEM", "ES256_PEM", "ES256_X509_PEM"]

/-- The five topic bindings of a device for role `roleId`, in the order the
claim lists them: read permission on the commands, config and errors topics,
then create permission on the events and state topics. -/
def topicBindings (args : DeviceMigratorArgs) (device : Device) (roleId : String) :
    List Call :=
  [.AddTopicToRole args.cbSystemKey ("/devices/" ++ device.Id ++ "/commands/#") roleId
      .PERM_READ,
   .AddTopicToRole args.cbSystemKey ("/devices/" ++ device.Id ++ "/config") roleId .PERM_READ,
   .AddTopicToRole args.cbSystemKey ("/devices/" ++ device.Id ++ "/errors") roleId .PERM_READ,
   .AddTopicToRole args.cbSystemKey ("/devices/" ++ device.Id ++ "/events/#") roleId
      .PERM_CREATE,
   .AddTopicToRole args.cbSystemKey ("/devices/" ++ device.Id ++ "/state") roleId
      .PERM_CREATE]

/-- Issue the calls one after the other, each of them answered without
error: the world reached, or `none` when one of them fails. -/
def issueAllOk (env : Env) : List Call → World → Option World
  | [], w => some w
  | c :: cs, w =>
    if (remoteCall env.remote c w).1.err = none then
      issueAllOk env cs (remoteCall env.remote c w).2
    else none

/-- Issue the calls one after the other up to the first failing one, whose
error is sent with the topic-binding context and returned. -/
def bindInOrder (env : Env) (device : Device) : List Call → World → GoError × World
  | [], w => (none, w)
  | c :: cs, w =>
    match (remoteCall env.remote c w).1.err with
    | some msg =>
      (some msg,
        send ⟨device.Id, "Error when adding topic to role", some msg⟩
          (remoteCall env.remote c w).2)
    | none => bindInOrder env device cs (remoteCall env.remote c w).2

/-- The world after `createRoleForDevice`, started in `w`, has issued
`CreateRole` and then `GetRole` and sent nothing. -/
def fetchedRoleWorld (env : Env) (args : DeviceMigratorArgs) (device : Device) (w : World) :
    World :=
  { calls := w.calls ++
      [eventOf env w.calls (.CreateRole args.cbSystemKey device.Id),
       eventOf env (w.calls ++ [eventOf env w.calls (.CreateRole args.cbSystemKey device.Id)])
         (.GetRole args.cbSystemKey device.Id)],
    resultC := w.resultC }

/-- The call is `CreateDevice`. -/
def Call.isCreateDevice : Call → Bool
  | .CreateDevice _ _ _ => true
  | _ => false

/-- A remote-call failure that is not an idempotent conflict: the call
returned an error, and the error is not the "already exists" of
`CreateDevice`, the "name must be unique" of `CreateRole`, or the "duplicate
key" of `AddDeviceToRoles`. -/
def Event.hardFailure (e : Event) : Bool :=
  match e.resp.err with
  | none => false
  | some msg =>
    match e.call with
    | .CreateDevice _ _ _ => !stringsContains msg "already exists in system"
    | .CreateRole _ _ => !stringsContains msg "A role's name must be unique"
    | .AddDeviceToRoles _ _ _ =>
      !stringsContains msg "duplicate key value violates unique constraint"
    | _ => true

/-- The step context the program attaches to a failure of each call. -/
def stepContext : Call → String
  | .CreateDevice _ _ _ => "Error when Creating Device"
  | .UpdateDevice _ _ _ => "Error when Patching Device"
  | .DeleteDevicePublicKey _ _ _ => "Error when deleting device credentials"
  | .AddDevicePublicKey _ _ _ _ _ => "Error when creating device credential"
  | .CreateRole _ _ => "Error when Creating role"
  | .GetRole _ _ => "Error when retrieving role"
  | .AddTopicToRole _ _ _ _ => "Error when adding topic to role"
  | .AddDeviceToRoles _ _ _ => "Error when Creating role"

/-- The `ErrorLog` entry for a failed call of a device's migration. -/
def failureLog (device : Device) (e : Event) : ErrorLog :=
  ⟨device.Id, stepContext e.call, e.resp.err⟩

/-- The run may go on: no failure so far halts it (only a failed create may
have happened), and every failure so far has its entry on the channel. -/
structure Running (device : Device) (w : World) : Prop where
  noStop : ∀ e ∈ w.calls, e.hardFailure = true → e.call.isCreateDevice = true
  logged : w.resultC = (w.calls.filter Event.hardFailure).map (failureLog device)

/-- The run is over or may go on: a failure other than a failed create can
only be the last call, and every failure has its entry on the channel. -/
structure Halted (device : Device) (w : World) : Prop where
  stopLast : ∀ e ∈ w.calls.dropLast, e.hardFailure = true → e.call.isCreateDevice = true
  logged : w.resultC = (w.calls.filter Event.hardFailure).map (failureLog device)

/-- The state right after call `c` got result `r`, before the caller has
reacted: a result that is no failure leaves the run going; a failure, once its
entry is sent, halts the run, except that a failed create leaves it going. -/
structure Pending (device : Device) (c : Call) (r : Resp) (w : World) : Prop where
  ok : (Event.mk c r).hardFailure = false → Running device w
  failed : (Event.mk c r).hardFailure = true →
    Halted device (send (failureLog device ⟨c, r⟩) w)
  create : (Event.mk c r).hardFailure = true → c.isCreateDevice = true →
    Running device (send (failureLog device ⟨c, r⟩) w)

/-- A run ends in a world satisfying `Q` (with the returned value) when it
returns and `A` when it aborts. -/
def Res.sat {α : Type} (r : Res α) (Q : α → World → Prop) (A : World → Prop) : Prop :=
  match r with
  | .ret a w => Q a w
  | .abort _ w => A w

/-- What a step leaves behind: it may be followed by another step only when
it returned `nil`. -/
def Settled (device : Device) (r : Res GoError) : Prop :=
  r.sat (fun err w => Halted device w ∧ (err = none → Running device w)) (Halted device)

/-- The end of a run of `migrateDevice`: a failure other than a failed
create can only be the last call, and the entries with a non-nil `Error` on
the channel are, in order, the entries of the failures. -/
structure Finished (device : Device) (w : World) : Prop where
  stopLast : ∀ e ∈ w.calls.dropLast, e.hardFailure = true → e.call.isCreateDevice = true
  logged : w.resultC.filter (fun l => l.Error.isSome) =
    (w.calls.filter Event.hardFailure).map (failureLog device)

/-! ## Concrete inputs used to evaluate the code -/

/-- A destination where the device already exists: `CreateDevice` fails with
the conflict message and every other call succeeds. -/
def existsRemote : Remote := fun _ c =>
  match c with
  | .CreateDevice _ _ _ => ⟨.nil, some "device dev-1 already exists in system"⟩
  | _ => ⟨.map [("role_id", .str "r-1")], none⟩

/-- A destination where deleting the device's credentials fails and every
other call succeeds. -/
def deleteFailsRemote : Remote := fun _ c =>
  match c with
  | .DeleteDevicePublicKey _ _ _ => ⟨.nil, some "delete refused"⟩
  | _ => ⟨.map [("role_id", .str "r-1")], none⟩

/-- The environment around `deleteFailsRemote`; no CSV file is readable. -/
def deleteFailsEnv : Env := ⟨deleteFailsRemote, fun _ => none⟩

/-- A destination where `CreateRole` fails with an error that is not the
unique-name conflict, returning a nil role as the SDK does on failure. -/
def createRoleFailsRemote : Remote := fun _ c =>
  match c with
  | .CreateRole _ _ => ⟨.nil, some "permission denied"⟩
  | _ => ⟨.map [("role_id", .str "r-1")], none⟩

/-- The environment around `createRoleFailsRemote`; no CSV file is readable. -/
def createRoleFailsEnv : Env := ⟨createRoleFailsRemote, fun _ => none⟩

/-- A destination where every call succeeds and roles carry id `r-1`. -/
def okRemote : Remote := fun _ _ => ⟨.map [("role_id", .str "r-1")], none⟩

/-- The environment around `okRemote`; no CSV file is readable. -/
def okEnv : Env := ⟨okRemote, fun _ => none⟩

/-- Flags: no column mapping, keys replaced, roles created. -/
def roleArgs : DeviceMigratorArgs :=
  { cbSystemKey := "sys", columnsCsvFile := "", deviceType := "sensor",
    updatePublicKeys := true, createDeviceRole := true }

/-- Flags: no column mapping, keys not replaced, roles created. -/
def roleOnlyArgs : DeviceMigratorArgs :=
  { cbSystemKey := "sys", columnsCsvFile := "", deviceType := "sensor",
    updatePublicKeys := false, createDeviceRole := true }

/-- A device with two credentials, the second without expiration. -/
def keyedDevice : Device :=
  { Id := "dev-1", Blocked := false,
    Credentials :=
      [⟨"2030-01-01T00:00:00Z", ⟨"RSA_X509_PEM", "cert-a"⟩⟩,
       ⟨"1970-01-01T00:00:00Z", ⟨"ES256_PEM", "key-b"⟩⟩] }

/-- The environment around `existsRemote`; no CSV file is readable. -/
def existsEnv : Env := ⟨existsRemote, fun _ => none⟩

/-- A destination where `CreateDevice` fails with an error that is not the
"already exists" conflict and every other call succeeds. -/
def createFailsRemote : Remote := fun _ c =>
  match c with
  | .CreateDevice _ _ _ => ⟨.nil, some "internal server error"⟩
  | _ => ⟨.map [("role_id", .str "r-1")], none⟩

/-- The environment around `createFailsRemote`; no CSV file is readable. -/
def createFailsEnv : Env := ⟨createFailsRemote, fun _ => none⟩

/-- Flags: no column mapping, keys replaced, roles not created. -/
def plainArgs : DeviceMigratorArgs :=
  { cbSystemKey := "sys", columnsCsvFile := "", deviceType := "sensor",
    updatePublicKeys := true, createDeviceRole := false }

/-- A device without credentials. -/
def bareDevice : Device := { Id := "dev-1", Blocked := false, Credentials := [] }

/-- The representation `transform` builds for `bareDevice` under `plainArgs`. -/
def bareDeviceData : GoMap :=
  [("name", .str "dev-1"), ("enabled", .bool true), ("type", .str "sensor"),
   ("allow_key_auth", .bool false), ("allow_certificate_auth", .bool true)]

/-- A destination where the role already exists and cannot be fetched:
`CreateRole` fails with the unique-name conflict, `GetRole` fails too, both
with a nil role, and every other call succeeds. -/
def getRoleFailsRemote : Remote := fun _ c =>
  match c with
  | .CreateRole _ _ => ⟨.nil, some "A role's name must be unique"⟩
  | .GetRole _ _ => ⟨.nil, some "role not found"⟩
  | _ => ⟨.map [("role_id", .str "r-1")], none⟩

/-- The environment around `getRoleFailsRemote`; no CSV file is readable. -/
def getRoleFailsEnv : Env := ⟨getRoleFailsRemote, fun _ => none⟩

/-- A destination where the device is already a member of its role:
`AddDeviceToRoles` fails with the duplicate-key message. -/
def memberRemote : Remote := fun _ c =>
  match c with
  | .AddDeviceToRoles _ _ _ =>
    ⟨.nil, some "pq: duplicate key value violates unique constraint \"device_roles_pkey\""⟩
  | _ => ⟨.map [("role_id", .str "r-1")], none⟩

/-- The environment around `memberRemote`; no CSV file is readable. -/
def memberEnv : Env := ⟨memberRemote, fun _ => none⟩

/-- A destination where `AddDeviceToRoles` fails for another reason. -/
def membershipFailsRemote : Remote := fun _ c =>
  match c with
  | .AddDeviceToRoles _ _ _ => ⟨.nil, some "role does not exist"⟩
  | _ => ⟨.map [("role_id", .str "r-1")], none⟩

/-- The environment around `membershipFailsRemote`; no CSV file is readable. -/
def membershipFailsEnv : Env := ⟨membershipFailsRemote, fun _ => none⟩

/-- A destination where binding the errors topic fails and every other call
succeeds. -/
def errorsTopicFailsRemote : Remote := fun _ c =>
  match c with
  | .AddTopicToRole _ topic _ _ =>
    if topic = "/devices/dev-1/errors" then ⟨.nil, some "topic refused"⟩ else ⟨.nil, none⟩
  | _ => ⟨.map [("role_id", .str "r-1")], none⟩

/-- The environment around `errorsTopicFailsRemote`; no CSV file is readable. -/
def errorsTopicFailsEnv : Env := ⟨errorsTopicFailsRemote, fun _ => none⟩

/-- A destination where the role of the device already exists: `CreateRole`
fails with the unique-name conflict, `GetRole` returns the role with its
identifier under key `ID`, and every other call succeeds. -/
def roleExistsRemote : Remote := fun _ c =>
  match c with
  | .CreateRole _ _ => ⟨.nil, some "A role's name must be unique"⟩
  | .GetRole _ _ => ⟨.map [("name", .str "dev-1"), ("ID", .str "r-9")], none⟩
  | _ => ⟨.nil, none⟩

/-- The environment around `roleExistsRemote`; no CSV file is readable. -/
def roleExistsEnv : Env := ⟨roleExistsRemote, fun _ => none⟩

/-- A device with one credential. -/
def singleKeyDevice : Device :=
  { Id := "dev-1", Blocked := false,
    Credentials := [⟨"1970-01-01T00:00:00Z", ⟨"ES256_PEM", "key-b"⟩⟩] }

/-- The calls of `singleKeyDevice` up to the end of credential sync, all
answered without error by `roleExistsRemote`. -/
def singleKeySynced : List Event :=
  [⟨.CreateDevice "sys" "dev-1" bareDeviceData, ⟨.nil, none⟩⟩,
   ⟨.DeleteDevicePublicKey "sys" "dev-1" (.GreaterThanEqualTo "key_format" 0), ⟨.nil, none⟩⟩,
   ⟨.AddDevicePublicKey "sys" "dev-1" "key-b" "" .ES256, ⟨.nil, none⟩⟩]

/-- A source registry that knows every device (one device per id asked), on
a 64-bit x86 machine, with the progress bar refusing to finish a bar created
for an empty batch ("max must be greater than 0") and working otherwise. -/
def consoleSource : Source :=
  { registryPath := fun _ => some "projects/p/locations/l/registries/r",
    list := fun _ _ ids => .ok (ids.map fun id => ⟨id, false, []⟩),
    barFinish := fun _ ids => if ids.isEmpty then some "max must be greater than 0" else none,
    barClose := fun _ _ => none,
    spinnerAdd := fun _ => none,
    intOfInf := -9223372036854775808 }

/-! ## Theorems -/

@[simp]
theorem Res.bind_ret {α β : Type} (a : α) (w : World) (f : α → World → Res β) :
    (Res.ret a w).bind f = f a w := rfl

@[simp]
theorem Res.bind_abort {α β : Type} (why : Abort) (w : World)
    (f : α → World → Res β) : (Res.abort why w : Res α).bind f = .abort why w := rfl

/-- C1 (code evaluated at the failing input): when `CreateDevice` fails with
"internal server error" and `UpdateDevice` succeeds, one run of `migrateDevice`
sends two values on `resultC`: the create-failure `ErrorLog` and then the
success marker. -/
theorem migrateDevice_create_failure_sends_two :
    migrateDevice createFailsEnv plainArgs bareDevice World.init =
      .ret ()
        { calls :=
            [⟨.CreateDevice "sys" "dev-1" bareDeviceData, ⟨.nil, some "internal server error"⟩⟩,
             ⟨.UpdateDevice "sys" "dev-1" bareDeviceData, ⟨.map [("role_id", .str "r-1")], none⟩⟩],
          resultC :=
            [⟨"dev-1", "Error when Creating Device", some "internal server error"⟩,
             ErrorLog.empty] } := by
  decide

/-- C2: when the create call fails with a message containing "already exists
in system", `createOrUpdateDevice` sends no `ErrorLog` for the create failure,
issues `UpdateDevice` exactly once, right after the create call and with the
transformed representation, and returns exactly the update call's error (the
only `ErrorLog` it can send is the one for a failed update); when the update
succeeds and no credential sync is due, `migrateDevice` emits the success
marker and nothing else. -/
theorem createOrUpdateDevice_conflict_patches (env : Env) (args : DeviceMigratorArgs)
    (device : Device) (w : World) (data : GoMap) (msg : String)
    (hT : transform env device args.deviceType args.columnsCsvFile = .ok data)
    (hC : (env.remote w.calls (.CreateDevice args.cbSystemKey device.Id data)).err = some msg)
    (hM : stringsContains msg "already exists in system" = true) :
    let ce := eventOf env w.calls (.CreateDevice args.cbSystemKey device.Id data)
    let ue := eventOf env (w.calls ++ [ce]) (.UpdateDevice args.cbSystemKey device.Id data)
    createOrUpdateDevice env args device w =
        .ret ue.resp.err
          { calls := w.calls ++ [ce, ue],
            resultC := w.resultC ++ patchLogs device ue.resp.err } ∧
      (ue.resp.err = none →
        ¬ (args.updatePublicKeys = true ∧ device.Credentials.length > 0) →
        migrateDevice env args device w =
          .ret () { calls := w.calls ++ [ce, ue], resultC := w.resultC ++ [ErrorLog.empty] }) := by
  intro ce ue
  have hco : createOrUpdateDevice env args device w =
      .ret ue.resp.err
        { calls := w.calls ++ [ce, ue],
          resultC := w.resultC ++ patchLogs device ue.resp.err } := by
    simp only [createOrUpdateDevice, createDevice, updateDevice, hT, remoteCall, Res.bind_ret,
      hC, hM, send]
    cases hU : ue.resp.err with
    | none =>
      simp only [ue, ce, eventOf] at hU
      simp [hU, patchLogs, ue, ce, eventOf]
    | some m =>
      simp only [ue, ce, eventOf] at hU
      simp [hU, patchLogs, ue, ce, eventOf]
  refine ⟨hco, ?_⟩
  intro hU hNo
  simp only [migrateDevice, hco, Res.bind_ret, hU]
  simp only [hU, patchLogs, List.append_nil] at *
  rw [if_neg (by simpa using hNo)]
  simp [send]

/-- C2 at a concrete input: device `dev-1` already exists at the destination. -/
theorem createOrUpdateDevice_conflict_patches_witness :
    transform existsEnv bareDevice plainArgs.deviceType plainArgs.columnsCsvFile
        = .ok bareDeviceData ∧
    (existsEnv.remote World.init.calls (.CreateDevice "sys" "dev-1" bareDeviceData)).err
        = some "device dev-1 already exists in system" ∧
    stringsContains "device dev-1 already exists in system" "already exists in system" = true ∧
    createOrUpdateDevice existsEnv plainArgs bareDevice World.init =
      .ret none
        { calls :=
            [⟨.CreateDevice "sys" "dev-1" bareDeviceData,
               ⟨.nil, some "device dev-1 already exists in system"⟩⟩,
             ⟨.UpdateDevice "sys" "dev-1" bareDeviceData, ⟨.map [("role_id", .str "r-1")], none⟩⟩],
          resultC := [] } :=
  ⟨rfl, by decide, by decide,
   (createOrUpdateDevice_conflict_patches existsEnv plainArgs bareDevice World.init
      bareDeviceData "device dev-1 already exists in system"
      rfl (by decide) (by decide)).1⟩

/-! ### Failures are logged once and halt the run -/

theorem Running.halted {device : Device} {w : World} (h : Running device w) :
    Halted device w :=
  ⟨fun e he => h.noStop e (List.mem_of_mem_dropLast he), h.logged⟩

theorem Running.call_ok {device : Device} {w : World} (h : Running device w) (c : Call)
    (r : Resp) (hr : (Event.mk c r).hardFailure = false) :
    Running device { calls := w.calls ++ [⟨c, r⟩], resultC := w.resultC } := by
  constructor
  · intro e he
    simp only [List.mem_append, List.mem_singleton] at he
    rcases he with he | rfl
    · exact h.noStop e he
    · simp [hr]
  · simp [List.filter_append, List.filter_cons, hr, h.logged]

theorem Running.call_failed {device : Device} {w : World} (h : Running device w) (c : Call)
    (r : Resp) (log : ErrorLog) (hr : (Event.mk c r).hardFailure = true)
    (hl : log = failureLog device ⟨c, r⟩) :
    Halted device { calls := w.calls ++ [⟨c, r⟩], resultC := w.resultC ++ [log] } := by
  constructor
  · intro e he
    simp only [List.dropLast_concat] at he
    exact h.noStop e he
  · simp [List.filter_append, List.filter_cons, hr, h.logged, hl]

theorem Running.create_failed {device : Device} {w : World} (h : Running device w) (c : Call)
    (r : Resp) (log : ErrorLog) (hc : c.isCreateDevice = true)
    (hr : (Event.mk c r).hardFailure = true) (hl : log = failureLog device ⟨c, r⟩) :
    Running device { calls := w.calls ++ [⟨c, r⟩], resultC := w.resultC ++ [log] } := by
  constructor
  · intro e he
    simp only [List.mem_append, List.mem_singleton] at he
    rcases he with he | rfl
    · exact h.noStop e he
    · intro _; exact hc
  · simp [List.filter_append, List.filter_cons, hr, h.logged, hl]

theorem Res.sat_bind {α β : Type} (r : Res α) (f : α → World → Res β)
    (Q : α → World → Prop) (Q' : β → World → Prop) (A : World → Prop)
    (hr : r.sat Q A) (hf : ∀ a w, Q a w → (f a w).sat Q' A) : (r.bind f).sat Q' A := by
  cases r with
  | ret a w => exact hf a w hr
  | abort why w => exact hr

theorem remoteCall_pending (env : Remote) (device : Device) (c : Call) (w : World)
    (h : Running device w) :
    Pending device c (remoteCall env c w).1 (remoteCall env c w).2 := by
  refine ⟨fun hr => ?_, fun hr => ?_, fun hr hc => ?_⟩
  · exact h.call_ok c _ hr
  · exact h.call_failed c _ _ hr rfl
  · exact h.create_failed c _ _ hc hr rfl

theorem createDevice_pending (env : Env) (args : DeviceMigratorArgs) (device : Device)
    (w : World) (h : Running device w) :
    (createDevice env args device w).sat
      (fun r w => ∃ k n d, Pending device (.CreateDevice k n d) r w) (Halted device) := by
  unfold createDevice
  cases transform env device args.deviceType args.columnsCsvFile with
  | error why => exact h.halted
  | ok data => exact ⟨_, _, _, remoteCall_pending env.remote device _ w h⟩

theorem updateDevice_pending (env : Env) (args : DeviceMigratorArgs) (device : Device)
    (w : World) (h : Running device w) :
    (updateDevice env args device w).sat
      (fun r w => ∃ k n d, Pending device (.UpdateDevice k n d) r w) (Halted device) := by
  unfold updateDevice
  cases transform env device args.deviceType args.columnsCsvFile with
  | error why => exact h.halted
  | ok data => exact ⟨_, _, _, remoteCall_pending env.remote device _ w h⟩

theorem createOrUpdateDevice_settled (env : Env) (args : DeviceMigratorArgs) (device : Device)
    (w : World) (h : Running device w) :
    Settled device (createOrUpdateDevice env args device w) := by
  unfold createOrUpdateDevice Settled
  refine Res.sat_bind _ _ _ _ _ (createDevice_pending env args device w h) ?_
  rintro r w1 ⟨k, n, d, hp⟩
  cases hC : r.err with
  | none =>
    have h1 := hp.ok (by simp [Event.hardFailure, hC])
    exact ⟨h1.halted, fun _ => h1⟩
  | some msg =>
    have h1 : Running device
        (if (!stringsContains msg "already exists in system") = true then
          send ⟨device.Id, "Error when Creating Device", some msg⟩ w1 else w1) := by
      split
      · rename_i hm
        have hl : (⟨device.Id, "Error when Creating Device", some msg⟩ : ErrorLog)
            = failureLog device ⟨.CreateDevice k n d, r⟩ := by
          simp [failureLog, stepContext, hC]
        rw [hl]
        exact hp.create (by simpa [Event.hardFailure, hC] using hm) rfl
      · rename_i hm
        exact hp.ok (by simpa [Event.hardFailure, hC] using hm)
    refine Res.sat_bind _ _ _ _ _ (updateDevice_pending env args device _ h1) ?_
    rintro u w2 ⟨k2, n2, d2, hp2⟩
    cases hU : u.err with
    | none =>
      have h2 := hp2.ok (by simp [Event.hardFailure, hU])
      exact ⟨h2.halted, fun _ => h2⟩
    | some m =>
      have hl : (⟨device.Id, "Error when Patching Device", some m⟩ : ErrorLog)
          = failureLog device ⟨.UpdateDevice k2 n2 d2, u⟩ := by
        simp [failureLog, stepContext, hU]
      refine ⟨?_, fun hn => by simp at hn⟩
      rw [hl]
      exact hp2.failed (by simp [Event.hardFailure, hU])

theorem createDeviceCredential_pending (env : Env) (args : DeviceMigratorArgs)
    (device : Device) (name : String) (cred : DeviceCredential) (w : World)
    (h : Running device w) :
    (createDeviceCredential env args name cred w).sat
      (fun r w => ∃ k n key ex f, Pending device (.AddDevicePublicKey k n key ex f) r w)
      (Halted device) := by
  unfold createDeviceCredential
  cases keyFormatOf cred.PublicKey.Format with
  | none => exact h.halted
  | some f => exact ⟨_, _, _, _, _, remoteCall_pending env.remote device _ w h⟩

theorem createDeviceCredentialsLoop_settled (env : Env) (args : DeviceMigratorArgs)
    (device : Device) (creds : List DeviceCredential) :
    ∀ w : World, Running device w →
      Settled device (createDeviceCredentialsLoop env args device creds none w) := by
  induction creds with
  | nil => intro w h; exact ⟨h.halted, fun _ => h⟩
  | cons cred rest ih =>
    intro w h
    unfold createDeviceCredentialsLoop Settled
    refine Res.sat_bind _ _ _ _ _ (createDeviceCredential_pending env args device _ cred w h) ?_
    rintro r w1 ⟨k, n, key, ex, f, hp⟩
    cases hE : r.err with
    | none => exact ih w1 (hp.ok (by simp [Event.hardFailure, hE]))
    | some msg =>
      have hl : (⟨device.Id, "Error when creating device credential", some msg⟩ : ErrorLog)
          = failureLog device ⟨.AddDevicePublicKey k n key ex f, r⟩ := by
        simp [failureLog, stepContext, hE]
      refine ⟨?_, fun hn => by simp at hn⟩
      rw [hl]
      exact hp.failed (by simp [Event.hardFailure, hE])

theorem createDeviceCredentials_settled (env : Env) (args : DeviceMigratorArgs)
    (device : Device) (w : World) (h : Running device w) :
    Settled device (createDeviceCredentials env args device w) := by
  have hp : Pending device _ (deleteDeviceCreds env args device.Id w).1
      (deleteDeviceCreds env args device.Id w).2 :=
    remoteCall_pending env.remote device
      (.DeleteDevicePublicKey args.cbSystemKey device.Id (.GreaterThanEqualTo "key_format" 0)) w h
  unfold createDeviceCredentials
  cases hd : deleteDeviceCreds env args device.Id w with
  | mk r w1 =>
    rw [hd] at hp
    cases hE : r.err with
    | none =>
      simp only [hE]
      exact createDeviceCredentialsLoop_settled env args device _ w1
        (hp.ok (by simp [Event.hardFailure, hE]))
    | some msg =>
      simp only [hE]
      have hl : (⟨device.Id, "Error when deleting device credentials", some msg⟩ : ErrorLog)
          = failureLog device
              ⟨.DeleteDevicePublicKey args.cbSystemKey device.Id
                (.GreaterThanEqualTo "key_format" 0), r⟩ := by
        simp [failureLog, stepContext, hE]
      refine ⟨?_, fun hn => by simp at hn⟩
      rw [hl]
      exact hp.failed (by simp [Event.hardFailure, hE])

theorem assertMap_sat {α : Type} (role : Iface) (w : World) (k : GoMap → Res α)
    (Q : α → World → Prop) (A : World → Prop) (hA : A w) (hk : ∀ m, (k m).sat Q A) :
    (assertMap role w k).sat Q A := by
  cases role with
  | nil => exact hA
  | map m => exact hk m
  | other => exact hA

theorem assertString_sat {α : Type} (v : Val) (w : World) (k : String → Res α)
    (Q : α → World → Prop) (A : World → Prop) (hA : A w) (hk : ∀ s, (k s).sat Q A) :
    (assertString v w k).sat Q A := by
  cases v with
  | str s => exact hk s
  | bool b => exact hA
  | other => exact hA

theorem roleIdOf_sat {α : Type} (role : GoMap) (w : World) (k : String → Res α)
    (Q : α → World → Prop) (A : World → Prop) (hA : A w) (hk : ∀ s, (k s).sat Q A) :
    (roleIdOf role w k).sat Q A := by
  unfold roleIdOf
  cases role.lookup "role_id" with
  | some v => exact assertString_sat v w k Q A hA hk
  | none =>
    cases role.lookup "ID" with
    | some v => exact assertString_sat v w k Q A hA hk
    | none => exact hk ""

theorem createRoleForDevice_settled (env : Env) (args : DeviceMigratorArgs) (device : Device)
    (w : World) (h : Running device w) :
    (createRoleForDevice env args device w).sat
      (fun p w => Halted device w ∧ (p.2 = none → Running device w)) (Halted device) := by
  have hp := remoteCall_pending env.remote device (.CreateRole args.cbSystemKey device.Id) w h
  unfold createRoleForDevice
  cases hc : remoteCall env.remote (.CreateRole args.cbSystemKey device.Id) w with
  | mk r w1 =>
    rw [hc] at hp
    cases hE : r.err with
    | none =>
      have h1 := hp.ok (by simp [Event.hardFailure, hE])
      simp only [hE]
      refine assertMap_sat _ _ _ _ _ h1.halted fun m => ?_
      exact ⟨h1.halted, fun _ => h1⟩
    | some msg =>
      by_cases hm : stringsContains msg "A role's name must be unique" = true
      · have h1 := hp.ok (by simp [Event.hardFailure, hE, hm])
        have hp2 := remoteCall_pending env.remote device
          (.GetRole args.cbSystemKey device.Id) w1 h1
        simp only [hE, hm, Bool.not_true, Bool.false_eq_true, if_false]
        cases hg : remoteCall env.remote (.GetRole args.cbSystemKey device.Id) w1 with
        | mk r2 w2 =>
          rw [hg] at hp2
          cases hE2 : r2.err with
          | none =>
            have h2 := hp2.ok (by simp [Event.hardFailure, hE2])
            simp only [hE2]
            refine assertMap_sat _ _ _ _ _ h2.halted fun m => ?_
            exact ⟨h2.halted, fun _ => h2⟩
          | some m2 =>
            have hl : (⟨device.Id, "Error when retrieving role", some m2⟩ : ErrorLog)
                = failureLog device ⟨.GetRole args.cbSystemKey device.Id, r2⟩ := by
              simp [failureLog, stepContext, hE2]
            have h2 := hp2.failed (by simp [Event.hardFailure, hE2])
            rw [← hl] at h2
            simp only [hE2]
            refine assertMap_sat _ _ _ _ _ h2 fun m => ?_
            exact ⟨h2, fun hn => by simp at hn⟩
      · have hl : (⟨device.Id, "Error when Creating role", some msg⟩ : ErrorLog)
            = failureLog device ⟨.CreateRole args.cbSystemKey device.Id, r⟩ := by
          simp [failureLog, stepContext, hE]
        have h1 := hp.failed (by simpa [Event.hardFailure, hE] using hm)
        rw [← hl] at h1
        simp only [hE, hm, Bool.not_false, if_true]
        refine assertMap_sat _ _ _ _ _ h1 fun m => ?_
        exact ⟨h1, fun hn => by simp at hn⟩

theorem addTopicsLoop_settled (env : Env) (args : DeviceMigratorArgs) (device : Device)
    (roleId : String) (perm : Perm) (topics : List String) :
    ∀ w : World, Running device w →
      Halted device (addTopicsLoop env args device roleId perm topics w).2 ∧
      ((addTopicsLoop env args device roleId perm topics w).1 = none →
        Running device (addTopicsLoop env args device roleId perm topics w).2) := by
  induction topics with
  | nil => intro w h; exact ⟨h.halted, fun _ => h⟩
  | cons topic rest ih =>
    intro w h
    have hp := remoteCall_pending env.remote device
      (.AddTopicToRole args.cbSystemKey (stringsReplace topic topicToken device.Id) roleId perm)
      w h
    unfold addTopicsLoop
    cases hc : remoteCall env.remote
      (.AddTopicToRole args.cbSystemKey (stringsReplace topic topicToken device.Id) roleId perm)
      w with
    | mk r w1 =>
      rw [hc] at hp
      cases hE : r.err with
      | none =>
        simp only [hE]
        exact ih w1 (hp.ok (by simp [Event.hardFailure, hE]))
      | some msg =>
        simp only [hE]
        have hl : (⟨device.Id, "Error when adding topic to role", some msg⟩ : ErrorLog)
            = failureLog device
                ⟨.AddTopicToRole args.cbSystemKey (stringsReplace topic topicToken device.Id)
                  roleId perm, r⟩ := by
          simp [failureLog, stepContext, hE]
        refine ⟨?_, fun hn => by simp at hn⟩
        rw [hl]
        exact hp.failed (by simp [Event.hardFailure, hE])

theorem addTopicsToRole_settled (env : Env) (args : DeviceMigratorArgs) (device : Device)
    (roleId : String) (w : World) (h : Running device w) :
    Settled device (addTopicsToRole env args device roleId w) := by
  have h1 := addTopicsLoop_settled env args device roleId .PERM_READ subTopics w h
  unfold addTopicsToRole
  cases hs : addTopicsLoop env args device roleId .PERM_READ subTopics w with
  | mk e1 w1 =>
    rw [hs] at h1
    cases e1 with
    | some msg => exact ⟨h1.1, fun hn => by simp at hn⟩
    | none =>
      have h2 := addTopicsLoop_settled env args device roleId .PERM_CREATE pubTopics w1
        (h1.2 rfl)
      simp only []
      cases hq : addTopicsLoop env args device roleId .PERM_CREATE pubTopics w1 with
      | mk e2 w2 =>
        rw [hq] at h2
        cases e2 with
        | some msg => exact ⟨h2.1, fun hn => by simp at hn⟩
        | none => exact ⟨h2.1, fun _ => h2.2 rfl⟩

theorem addDeviceToRole_settled (env : Env) (args : DeviceMigratorArgs) (device : Device)
    (w : World) (h : Running device w) :
    Settled device (addDeviceToRole env args device w) := by
  have hp := remoteCall_pending env.remote device
    (.AddDeviceToRoles args.cbSystemKey device.Id [device.Id]) w h
  unfold addDeviceToRole
  cases hc : remoteCall env.remote
    (.AddDeviceToRoles args.cbSystemKey device.Id [device.Id]) w with
  | mk r w1 =>
    rw [hc] at hp
    cases hE : r.err with
    | none =>
      have h1 := hp.ok (by simp [Event.hardFailure, hE])
      simp only [hE]
      exact ⟨h1.halted, fun _ => h1⟩
    | some msg =>
      by_cases hm : stringsContains msg "duplicate key value violates unique constraint" = true
      · have h1 := hp.ok (by simp [Event.hardFailure, hE, hm])
        simp only [hE, hm, Bool.not_true, Bool.false_eq_true, if_false]
        exact ⟨h1.halted, fun _ => h1⟩
      · have hl : (⟨device.Id, "Error when Creating role", some msg⟩ : ErrorLog)
            = failureLog device
                ⟨.AddDeviceToRoles args.cbSystemKey device.Id [device.Id], r⟩ := by
          simp [failureLog, stepContext, hE]
        have h1 := hp.failed (by simpa [Event.hardFailure, hE] using hm)
        rw [← hl] at h1
        simp only [hE, hm, Bool.not_false, if_true]
        exact ⟨h1, fun hn => by simp at hn⟩

theorem failureLog_filter (device : Device) (evs : List Event) :
    ((evs.filter Event.hardFailure).map (failureLog device)).filter
        (fun l => l.Error.isSome) =
      (evs.filter Event.hardFailure).map (failureLog device) := by
  rw [List.filter_eq_self]
  intro l hl
  obtain ⟨e, he, rfl⟩ := List.mem_map.1 hl
  have hh := (List.mem_filter.1 he).2
  unfold Event.hardFailure at hh
  cases hE : e.resp.err with
  | none => simp [hE] at hh
  | some msg => simp [failureLog, hE]

theorem Halted.finished {device : Device} {w : World} (h : Halted device w) :
    Finished device w :=
  ⟨h.stopLast, by rw [h.logged]; exact failureLog_filter device _⟩

theorem Running.success {device : Device} {w : World} (h : Running device w) :
    Finished device (send ErrorLog.empty w) := by
  refine ⟨fun e he => h.noStop e (List.mem_of_mem_dropLast he), ?_⟩
  simp only [send, List.filter_append, h.logged, failureLog_filter]
  simp [ErrorLog.empty]

theorem migrateDevice_finished (env : Env) (args : DeviceMigratorArgs) (device : Device)
    (w : World) (h : Running device w) :
    (migrateDevice env args device w).sat (fun _ w => Finished device w)
      (Finished device) := by
  have weaken : ∀ (r : Res GoError) (f : GoError → World → Res Unit), Settled device r →
      (∀ err w, Halted device w → (err = none → Running device w) →
        (f err w).sat (fun _ w => Finished device w) (fun w => Halted device w)) →
      (r.bind f).sat (fun _ w => Finished device w) (Finished device) := by
    intro r f hr hf
    cases r with
    | ret a w1 =>
      have := hf a w1 hr.1 hr.2
      simp only [Res.bind_ret]
      cases hfa : f a w1 with
      | ret u w2 => rw [hfa] at this; exact this
      | abort why w2 => rw [hfa] at this; exact Halted.finished this
    | abort why w1 => exact Halted.finished hr
  unfold migrateDevice
  refine weaken _ _ (createOrUpdateDevice_settled env args device w h) ?_
  intro err w1 hH hR
  split
  · rename_i hc
    have hR1 := hR hc.1
    refine Res.sat_bind _ _ _ _ _ (createDeviceCredentials_settled env args device w1 hR1) ?_
    rintro err2 w2 ⟨hH2, hR2⟩
    cases err2 with
    | some m => exact hH2.finished
    | none =>
      have hR2 := hR2 rfl
      simp only []
      split
      · refine Res.sat_bind _ _ _ _ _ (createRoleForDevice_settled env args device w2 hR2) ?_
        rintro ⟨role, err3⟩ w3 ⟨hH3, hR3⟩
        cases err3 with
        | some m => exact hH3.finished
        | none =>
          have hR3 := hR3 rfl
          simp only []
          refine roleIdOf_sat _ _ _ _ _ hH3 fun roleId => ?_
          refine Res.sat_bind _ _ _ _ _ (addTopicsToRole_settled env args device roleId w3 hR3) ?_
          rintro err4 w4 ⟨hH4, hR4⟩
          cases err4 with
          | some m => exact hH4.finished
          | none =>
            have hR4 := hR4 rfl
            simp only []
            refine Res.sat_bind _ _ _ _ _ (addDeviceToRole_settled env args device w4 hR4) ?_
            rintro err5 w5 ⟨hH5, hR5⟩
            cases err5 with
            | some m => exact hH5.finished
            | none => exact (hR5 rfl).success
      · exact hR2.success
  · cases err with
    | some m => exact hH.finished
    | none => exact (hR rfl).success

theorem Res.world_of_sat {α : Type} (r : Res α) (P : World → Prop)
    (h : r.sat (fun _ w => P w) P) : P r.world := by
  cases r with
  | ret a w => exact h
  | abort why w => exact h

theorem running_init (device : Device) : Running device World.init :=
  ⟨fun e he => by simp [World.init] at he, by simp [World.init]⟩

/-- C3 as stated fails: after a `CreateDevice` failure that is not the
"already exists" conflict, `migrateDevice` still issues a further remote call
(`UpdateDevice`). -/
theorem migrateDevice_calls_after_failed_create :
    ∃ pre e post,
      (migrateDevice createFailsEnv plainArgs bareDevice World.init).world.calls
          = pre ++ e :: post ∧
        e.hardFailure = true ∧ post ≠ [] :=
  ⟨[], ⟨.CreateDevice "sys" "dev-1" bareDeviceData, ⟨.nil, some "internal server error"⟩⟩,
    [⟨.UpdateDevice "sys" "dev-1" bareDeviceData, ⟨.map [("role_id", .str "r-1")], none⟩⟩],
    by decide, by decide, by decide⟩

/-- C3 (amended): in one run of `migrateDevice`, whether it returns or
aborts, the entries with a non-nil `Error` sent on `resultC` are, in order,
exactly one entry per remote-call failure that is not an idempotent conflict,
each carrying the device id, the context of the failing step and the error;
and every such failure other than a failed create is the last remote call of
the run. -/
theorem migrateDevice_failures_logged_once_and_halt (env : Env) (args : DeviceMigratorArgs)
    (device : Device) :
    let w := (migrateDevice env args device World.init).world
    w.resultC.filter (fun l => l.Error.isSome)
        = (w.calls.filter Event.hardFailure).map (failureLog device) ∧
      ∀ pre e post, w.calls = pre ++ e :: post → e.hardFailure = true →
        e.call.isCreateDevice = false → post = [] := by
  intro w
  have hF : Finished device w :=
    Res.world_of_sat _ _ (migrateDevice_finished env args device World.init (running_init device))
  refine ⟨hF.logged, ?_⟩
  intro pre e post hw hh hc
  by_contra hne
  have hmem : e ∈ w.calls.dropLast := by
    obtain ⟨p, ps, rfl⟩ := List.exists_cons_of_ne_nil hne
    rw [hw, List.dropLast_append_of_ne_nil _ (by simp)]
    simp [List.dropLast]
  have := hF.stopLast e hmem hh
  rw [hc] at this
  exact absurd this (by simp)

/-- C3 (amended) at a concrete input: the credential delete fails; it is the
last call and has the only entry on the channel. -/
theorem migrateDevice_failures_logged_once_and_halt_witness :
    (migrateDevice deleteFailsEnv plainArgs keyedDevice World.init).world.calls
        = [⟨.CreateDevice "sys" "dev-1" bareDeviceData, ⟨.map [("role_id", .str "r-1")], none⟩⟩]
          ++ ⟨.DeleteDevicePublicKey "sys" "dev-1" (.GreaterThanEqualTo "key_format" 0),
               ⟨.nil, some "delete refused"⟩⟩ :: [] ∧
      (⟨.DeleteDevicePublicKey "sys" "dev-1" (.GreaterThanEqualTo "key_format" 0),
        ⟨.nil, some "delete refused"⟩⟩ : Event).hardFailure = true ∧
      (Call.DeleteDevicePublicKey "sys" "dev-1" (.GreaterThanEqualTo "key_format" 0)).isCreateDevice
        = false ∧
      ([] : List Event) = [] :=
  ⟨by decide, by decide, by decide,
   (migrateDevice_failures_logged_once_and_halt deleteFailsEnv plainArgs keyedDevice).2
     [⟨.CreateDevice "sys" "dev-1" bareDeviceData, ⟨.map [("role_id", .str "r-1")], none⟩⟩]
     ⟨.DeleteDevicePublicKey "sys" "dev-1" (.GreaterThanEqualTo "key_format" 0),
       ⟨.nil, some "delete refused"⟩⟩
     [] (by decide) (by decide) (by decide)⟩

/-- C4: when the create call fails with a message that does not contain
"already exists in system", `createOrUpdateDevice` sends the `ErrorLog`
{device id, "Error when Creating Device", the create error}, still issues
`UpdateDevice` exactly once (right after the create call, with the transformed
representation), and returns the update call's error; the only other entry it
can send is the one for a failed update. -/
theorem createOrUpdateDevice_create_failure_logged_then_patches (env : Env)
    (args : DeviceMigratorArgs) (device : Device) (w : World) (data : GoMap) (msg : String)
    (hT : transform env device args.deviceType args.columnsCsvFile = .ok data)
    (hC : (env.remote w.calls (.CreateDevice args.cbSystemKey device.Id data)).err = some msg)
    (hM : stringsContains msg "already exists in system" = false) :
    let ce := eventOf env w.calls (.CreateDevice args.cbSystemKey device.Id data)
    let ue := eventOf env (w.calls ++ [ce]) (.UpdateDevice args.cbSystemKey device.Id data)
    createOrUpdateDevice env args device w =
      .ret ue.resp.err
        { calls := w.calls ++ [ce, ue],
          resultC := w.resultC ++
            ⟨device.Id, "Error when Creating Device", some msg⟩ ::
              patchLogs device ue.resp.err } := by
  intro ce ue
  simp only [createOrUpdateDevice, createDevice, updateDevice, hT, remoteCall, Res.bind_ret,
    hC, hM, send]
  cases hU : ue.resp.err with
  | none =>
    simp only [ue, ce, eventOf] at hU
    simp [hU, patchLogs, ue, ce, eventOf]
  | some m =>
    simp only [ue, ce, eventOf] at hU
    simp [hU, patchLogs, ue, ce, eventOf]

/-- C4 at a concrete input: create fails with "internal server error", the
update succeeds. -/
theorem createOrUpdateDevice_create_failure_logged_then_patches_witness :
    transform createFailsEnv bareDevice plainArgs.deviceType plainArgs.columnsCsvFile
        = .ok bareDeviceData ∧
    (createFailsEnv.remote World.init.calls (.CreateDevice "sys" "dev-1" bareDeviceData)).err
        = some "internal server error" ∧
    stringsContains "internal server error" "already exists in system" = false ∧
    createOrUpdateDevice createFailsEnv plainArgs bareDevice World.init =
      .ret none
        { calls :=
            [⟨.CreateDevice "sys" "dev-1" bareDeviceData, ⟨.nil, some "internal server error"⟩⟩,
             ⟨.UpdateDevice "sys" "dev-1" bareDeviceData, ⟨.map [("role_id", .str "r-1")], none⟩⟩],
          resultC := [⟨"dev-1", "Error when Creating Device", some "internal server error"⟩] } :=
  ⟨rfl, by decide, by decide,
   createOrUpdateDevice_create_failure_logged_then_patches createFailsEnv plainArgs bareDevice
     World.init bareDeviceData "internal server error" rfl (by decide) (by decide)⟩

/-- C5 (code evaluated at the failing inputs): with `createDeviceRole` set and
every remote call succeeding, `migrateDevice` issues no `CreateRole` call when
the device carries no credentials, nor when `updatePublicKeys` is off; the
only call is `CreateDevice`, and the success marker is emitted. -/
theorem migrateDevice_skips_roles_without_credential_sync :
    migrateDevice okEnv roleArgs bareDevice World.init =
        .ret ()
          { calls :=
              [⟨.CreateDevice "sys" "dev-1" bareDeviceData,
                 ⟨.map [("role_id", .str "r-1")], none⟩⟩],
            resultC := [ErrorLog.empty] } ∧
      migrateDevice okEnv roleOnlyArgs keyedDevice World.init =
        .ret ()
          { calls :=
              [⟨.CreateDevice "sys" "dev-1" bareDeviceData,
                 ⟨.map [("role_id", .str "r-1")], none⟩⟩],
            resultC := [ErrorLog.empty] } := by
  decide

/-! ### Credential sync -/

theorem createOrUpdateDevice_effects (env : Env) (args : DeviceMigratorArgs) (device : Device)
    (w w1 : World) (err : GoError)
    (h : createOrUpdateDevice env args device w = .ret err w1) :
    (∀ e ∈ w1.calls, e ∈ w.calls ∨
      (e.call.isRoleCall = false ∧ e.call.isCredentialCreate = false)) ∧
    ∀ l ∈ w1.resultC, l ∈ w.resultC ∨ l ≠ ErrorLog.empty := by
  unfold createOrUpdateDevice createDevice updateDevice at h
  cases hT : transform env device args.deviceType args.columnsCsvFile with
  | error why => simp [hT] at h
  | ok data =>
    simp only [hT, remoteCall, Res.bind_ret] at h
    cases hC : (env.remote w.calls (.CreateDevice args.cbSystemKey device.Id data)).err with
    | none =>
      simp only [hC, Res.ret.injEq] at h
      obtain ⟨_, rfl⟩ := h
      constructor
      · intro e he
        simp only [List.mem_append, List.mem_singleton] at he
        rcases he with he | rfl
        · exact Or.inl he
        · exact Or.inr ⟨rfl, rfl⟩
      · intro l hl; exact Or.inl hl
    | some msg =>
      simp only [hC] at h
      have key : ∀ (w0 : World),
          (∀ e ∈ w0.calls, e ∈ w.calls ∨
            (e.call.isRoleCall = false ∧ e.call.isCredentialCreate = false)) →
          (∀ l ∈ w0.resultC, l ∈ w.resultC ∨ l ≠ ErrorLog.empty) →
          (match (env.remote w0.calls (.UpdateDevice args.cbSystemKey device.Id data)).err with
            | some m => Res.ret (some m)
                (send ⟨device.Id, "Error when Patching Device", some m⟩
                  { calls := w0.calls ++ [⟨.UpdateDevice args.cbSystemKey device.Id data,
                      env.remote w0.calls (.UpdateDevice args.cbSystemKey device.Id data)⟩],
                    resultC := w0.resultC })
            | none => Res.ret none
                  { calls := w0.calls ++ [⟨.UpdateDevice args.cbSystemKey device.Id data,
                      env.remote w0.calls (.UpdateDevice args.cbSystemKey device.Id data)⟩],
                    resultC := w0.resultC }) = Res.ret err w1 →
          (∀ e ∈ w1.calls, e ∈ w.calls ∨
            (e.call.isRoleCall = false ∧ e.call.isCredentialCreate = false)) ∧
          ∀ l ∈ w1.resultC, l ∈ w.resultC ∨ l ≠ ErrorLog.empty := by
        intro w0 hc hl h0
        split at h0
        all_goals
          simp only [Res.ret.injEq] at h0
          obtain ⟨_, rfl⟩ := h0
          constructor
          · intro e he
            simp only [send, List.mem_append, List.mem_singleton] at he
            rcases he with he | rfl
            · exact hc e he
            · exact Or.inr ⟨rfl, rfl⟩
          · intro l hl'
            simp only [send, List.mem_append, List.mem_singleton] at hl'
            first
              | exact hl l hl'
              | (rcases hl' with hl' | rfl
                 · exact hl l hl'
                 · exact Or.inr (by simp [ErrorLog.empty]))
      refine key _ ?_ ?_ h
      · intro e he
        split at he
        all_goals
          simp only [send, List.mem_append, List.mem_singleton] at he
          rcases he with he | rfl
          · exact Or.inl he
          · exact Or.inr ⟨rfl, rfl⟩
      · intro l hl
        split at hl
        · simp only [send, List.mem_append, List.mem_singleton] at hl
          rcases hl with hl | rfl
          · exact Or.inl hl
          · exact Or.inr (by simp [ErrorLog.empty])
        · exact Or.inl hl

theorem createDeviceCredentials_delete_failed (env : Env) (args : DeviceMigratorArgs)
    (device : Device) (w : World) (msg : String)
    (hD : (env.remote w.calls (deleteCall args device)).err = some msg) :
    createDeviceCredentials env args device w =
      .ret (some msg)
        { calls := w.calls ++ [eventOf env w.calls (deleteCall args device)],
          resultC := w.resultC ++
            [⟨device.Id, "Error when deleting device credentials", some msg⟩] } := by
  simp only [deleteCall] at hD
  simp [createDeviceCredentials, deleteDeviceCreds, remoteCall, hD, send, eventOf, deleteCall]

theorem migrateDevice_delete_failed (env : Env) (args : DeviceMigratorArgs)
    (device : Device) (w w1 : World) (msg : String)
    (hU : createOrUpdateDevice env args device w = .ret none w1)
    (hK : args.updatePublicKeys = true) (hN : device.Credentials.length > 0)
    (hD : (env.remote w1.calls (deleteCall args device)).err = some msg) :
    migrateDevice env args device w =
      .ret ()
        { calls := w1.calls ++ [eventOf env w1.calls (deleteCall args device)],
          resultC := w1.resultC ++
            [⟨device.Id, "Error when deleting device credentials", some msg⟩] } := by
  unfold migrateDevice
  rw [hU, Res.bind_ret, if_pos ⟨rfl, hK, hN⟩,
    createDeviceCredentials_delete_failed env args device w1 msg hD, Res.bind_ret]

/-- C6: when the delete-all-credentials call fails, `createDeviceCredentials`
issues no credential-create call (the delete is its only call), sends exactly
one `ErrorLog` {device id, "Error when deleting device credentials", the delete
error} and returns that error; and `migrateDevice`, for a device with at least
one credential whose upsert succeeded and with `updatePublicKeys` on, ends
right there: the delete is its last call, its entry is the last value sent,
no role call or credential-create call is issued and no success marker is
emitted. -/
theorem createDeviceCredentials_delete_failure_halts (env : Env) (args : DeviceMigratorArgs)
    (device : Device) :
    (∀ (w : World) (msg : String),
      (env.remote w.calls (deleteCall args device)).err = some msg →
      createDeviceCredentials env args device w =
        .ret (some msg)
          { calls := w.calls ++ [eventOf env w.calls (deleteCall args device)],
            resultC := w.resultC ++
              [⟨device.Id, "Error when deleting device credentials", some msg⟩] }) ∧
    (∀ (w w1 : World) (msg : String),
      createOrUpdateDevice env args device w = .ret none w1 →
      args.updatePublicKeys = true → device.Credentials.length > 0 →
      (env.remote w1.calls (deleteCall args device)).err = some msg →
      migrateDevice env args device w =
        .ret ()
          { calls := w1.calls ++ [eventOf env w1.calls (deleteCall args device)],
            resultC := w1.resultC ++
              [⟨device.Id, "Error when deleting device credentials", some msg⟩] }) ∧
    (∀ (w1 : World) (msg : String),
      createOrUpdateDevice env args device World.init = .ret none w1 →
      args.updatePublicKeys = true → device.Credentials.length > 0 →
      (env.remote w1.calls (deleteCall args device)).err = some msg →
      (∀ e ∈ (migrateDevice env args device World.init).world.calls,
        e.call.isRoleCall = false ∧ e.call.isCredentialCreate = false) ∧
      ErrorLog.empty ∉ (migrateDevice env args device World.init).world.resultC) := by
  refine ⟨createDeviceCredentials_delete_failed env args device,
    migrateDevice_delete_failed env args device, ?_⟩
  intro w1 msg hU hK hN hD
  rw [migrateDevice_delete_failed env args device _ w1 msg hU hK hN hD]
  obtain ⟨hev, hlog⟩ := createOrUpdateDevice_effects env args device _ w1 none hU
  simp only [Res.world]
  constructor
  · intro e he
    simp only [List.mem_append, List.mem_singleton] at he
    rcases he with he | rfl
    · rcases hev e he with h0 | h0
      · simp [World.init] at h0
      · exact h0
    · simp [eventOf, deleteCall, Call.isRoleCall, Call.isCredentialCreate]
  · intro hmem
    simp only [List.mem_append, List.mem_singleton] at hmem
    rcases hmem with hmem | hmem
    · rcases hlog _ hmem with h0 | h0
      · simp [World.init] at h0
      · exact h0 rfl
    · simp [ErrorLog.empty] at hmem

/-- C6 at a concrete input (Scenario C): two credentials, the delete fails. -/
theorem createDeviceCredentials_delete_failure_halts_witness :
    createOrUpdateDevice deleteFailsEnv plainArgs keyedDevice World.init =
        .ret none
          ⟨[⟨.CreateDevice "sys" "dev-1" bareDeviceData,
              ⟨.map [("role_id", .str "r-1")], none⟩⟩], []⟩ ∧
      plainArgs.updatePublicKeys = true ∧ keyedDevice.Credentials.length > 0 ∧
      (deleteFailsEnv.remote
          [⟨.CreateDevice "sys" "dev-1" bareDeviceData, ⟨.map [("role_id", .str "r-1")], none⟩⟩]
          (deleteCall plainArgs keyedDevice)).err = some "delete refused" ∧
      migrateDevice deleteFailsEnv plainArgs keyedDevice World.init =
        .ret ()
          { calls :=
              [⟨.CreateDevice "sys" "dev-1" bareDeviceData,
                 ⟨.map [("role_id", .str "r-1")], none⟩⟩,
               ⟨.DeleteDevicePublicKey "sys" "dev-1" (.GreaterThanEqualTo "key_format" 0),
                 ⟨.nil, some "delete refused"⟩⟩],
            resultC :=
              [⟨"dev-1", "Error when deleting device credentials", some "delete refused"⟩] } :=
  ⟨by decide, by decide, by decide, by decide,
   (createDeviceCredentials_delete_failure_halts deleteFailsEnv plainArgs keyedDevice).2.1
     World.init
     ⟨[⟨.CreateDevice "sys" "dev-1" bareDeviceData, ⟨.map [("role_id", .str "r-1")], none⟩⟩], []⟩
     "delete refused" (by decide) (by decide) (by decide) (by decide)⟩

theorem createDeviceCredential_effects (env : Env) (args : DeviceMigratorArgs)
    (name : String) (cred : DeviceCredential) (w w1 : World) (r : Resp)
    (h : createDeviceCredential env args name cred w = .ret r w1) :
    w1.resultC = w.resultC ∧
      ∃ e, w1.calls = w.calls ++ [e] ∧ IsCreateCallFor args name e cred := by
  unfold createDeviceCredential at h
  cases hf : keyFormatOf cred.PublicKey.Format with
  | none => simp [hf] at h
  | some f =>
    simp only [hf, remoteCall, Res.ret.injEq] at h
    obtain ⟨_, rfl⟩ := h
    exact ⟨rfl, _, rfl, _, _, rfl⟩

theorem keyFormatOf_eq_none (format : String) (h : format ∉ recognizedFormats) :
    keyFormatOf format = none := by
  simp only [recognizedFormats, List.mem_cons, List.mem_singleton, List.not_mem_nil, or_false,
    not_or] at h
  obtain ⟨h1, h2, h3, h4⟩ := h
  simp [keyFormatOf, h1, h2, h3, h4]

theorem keyFormatOf_isSome (format : String) (h : format ∈ recognizedFormats) :
    ∃ f, keyFormatOf format = some f := by
  simp only [recognizedFormats, List.mem_cons, List.mem_singleton, List.not_mem_nil,
    or_false] at h
  rcases h with rfl | rfl | rfl | rfl
  · exact ⟨.RS256, by decide⟩
  · exact ⟨.RS256_X509, by decide⟩
  · exact ⟨.ES256, by decide⟩
  · exact ⟨.ES256_X509, by decide⟩

theorem createDeviceCredential_issues (env : Env) (args : DeviceMigratorArgs) (name : String)
    (cred : DeviceCredential) (w : World) (f : KeyFormat)
    (h : keyFormatOf cred.PublicKey.Format = some f) :
    IssuesKey env args name cred w
      (if cred.ExpirationTime ≠ "1970-01-01T00:00:00Z" then cred.ExpirationTime else "") f := by
  simp [IssuesKey, createDeviceCredential, h, remoteCall, eventOf]

/-- C8: `createDeviceCredential` maps each of the four recognized source
formats to its destination format ("RSA_PEM" to RS256, "RSA_X509_PEM" to
RS256_X509, "ES256_PEM" to ES256, "ES256_X509_PEM" to ES256_X509) in the one
`AddDevicePublicKey` call it issues, and for every other format string it
rejects the credential by panicking before any call: the world is unchanged,
so no `AddDevicePublicKey` call is made and no default format is used. -/
theorem createDeviceCredential_format_mapping (env : Env) (args : DeviceMigratorArgs)
    (name : String) (cred : DeviceCredential) (w : World) :
    (cred.PublicKey.Format = "RSA_PEM" → ∃ ex, IssuesKey env args name cred w ex .RS256) ∧
    (cred.PublicKey.Format = "RSA_X509_PEM" →
      ∃ ex, IssuesKey env args name cred w ex .RS256_X509) ∧
    (cred.PublicKey.Format = "ES256_PEM" → ∃ ex, IssuesKey env args name cred w ex .ES256) ∧
    (cred.PublicKey.Format = "ES256_X509_PEM" →
      ∃ ex, IssuesKey env args name cred w ex .ES256_X509) ∧
    (cred.PublicKey.Format ∉ recognizedFormats →
      createDeviceCredential env args name cred w =
        .abort (.panic "unrecognized escape character") w) := by
  refine ⟨fun h => ⟨_, createDeviceCredential_issues env args name cred w _ ?_⟩,
    fun h => ⟨_, createDeviceCredential_issues env args name cred w _ ?_⟩,
    fun h => ⟨_, createDeviceCredential_issues env args name cred w _ ?_⟩,
    fun h => ⟨_, createDeviceCredential_issues env args name cred w _ ?_⟩, fun h => ?_⟩
  · rw [h]; decide
  · rw [h]; decide
  · rw [h]; decide
  · rw [h]; decide
  · simp [createDeviceCredential, keyFormatOf_eq_none _ h]

/-- C8 at concrete inputs: an "ES256_PEM" credential is sent as ES256, and a
credential of format "DSA_PEM" is rejected without a call. -/
theorem createDeviceCredential_format_mapping_witness :
    (⟨"1970-01-01T00:00:00Z", ⟨"ES256_PEM", "key-b"⟩⟩ : DeviceCredential).PublicKey.Format
        = "ES256_PEM" ∧
      (∃ ex, IssuesKey okEnv plainArgs "dev-1" ⟨"1970-01-01T00:00:00Z", ⟨"ES256_PEM", "key-b"⟩⟩
        World.init ex .ES256) ∧
      "DSA_PEM" ∉ recognizedFormats ∧
      createDeviceCredential okEnv plainArgs "dev-1" ⟨"", ⟨"DSA_PEM", "key-c"⟩⟩ World.init =
        .abort (.panic "unrecognized escape character") World.init :=
  ⟨rfl,
   (createDeviceCredential_format_mapping okEnv plainArgs "dev-1"
      ⟨"1970-01-01T00:00:00Z", ⟨"ES256_PEM", "key-b"⟩⟩ World.init).2.2.1 rfl,
   by decide,
   (createDeviceCredential_format_mapping okEnv plainArgs "dev-1"
      ⟨"", ⟨"DSA_PEM", "key-c"⟩⟩ World.init).2.2.2.2 (by decide)⟩

/-- C9: for a credential with a recognized key format, the one
`AddDevicePublicKey` call of `createDeviceCredential` carries the credential's
key material unchanged and, as expiration, the empty string when
`ExpirationTime` is "1970-01-01T00:00:00Z" and the credential's
`ExpirationTime` otherwise. -/
theorem createDeviceCredential_passes_key_and_expiration (env : Env)
    (args : DeviceMigratorArgs) (name : String) (cred : DeviceCredential) (w : World)
    (hF : cred.PublicKey.Format ∈ recognizedFormats) :
    (cred.ExpirationTime = "1970-01-01T00:00:00Z" →
      ∃ f, IssuesKey env args name cred w "" f) ∧
    (cred.ExpirationTime ≠ "1970-01-01T00:00:00Z" →
      ∃ f, IssuesKey env args name cred w cred.ExpirationTime f) := by
  obtain ⟨f, hf⟩ := keyFormatOf_isSome _ hF
  have h := createDeviceCredential_issues env args name cred w f hf
  constructor
  · intro he
    rw [if_neg (by simpa using he)] at h
    exact ⟨f, h⟩
  · intro he
    rw [if_pos he] at h
    exact ⟨f, h⟩

/-- C9 at concrete inputs: the epoch-zero expiration becomes the empty
string, another expiration is passed through. -/
theorem createDeviceCredential_passes_key_and_expiration_witness :
    "ES256_PEM" ∈ recognizedFormats ∧ "RSA_X509_PEM" ∈ recognizedFormats ∧
      (∃ f, IssuesKey okEnv plainArgs "dev-1" ⟨"1970-01-01T00:00:00Z", ⟨"ES256_PEM", "key-b"⟩⟩
        World.init "" f) ∧
      (∃ f, IssuesKey okEnv plainArgs "dev-1" ⟨"2030-01-01T00:00:00Z", ⟨"RSA_X509_PEM", "cert-a"⟩⟩
        World.init "2030-01-01T00:00:00Z" f) :=
  ⟨by decide, by decide,
   (createDeviceCredential_passes_key_and_expiration okEnv plainArgs "dev-1"
      ⟨"1970-01-01T00:00:00Z", ⟨"ES256_PEM", "key-b"⟩⟩ World.init (by decide)).1 rfl,
   (createDeviceCredential_passes_key_and_expiration okEnv plainArgs "dev-1"
      ⟨"2030-01-01T00:00:00Z", ⟨"RSA_X509_PEM", "cert-a"⟩⟩ World.init (by decide)).2
      (by decide)⟩

/-! ### Role provisioning -/

/-- C10 (code evaluated at the failing input): `CreateRole` fails with
"permission denied", not the unique-name conflict, and returns a nil role.
`createRoleForDevice` issues no `GetRole` call and sends the one `ErrorLog`
with context "Error when Creating role", but it does not return the create
error: the type assertion on the nil role panics. -/
theorem createRoleForDevice_create_failure_panics :
    createRoleForDevice createRoleFailsEnv roleArgs keyedDevice World.init =
      .abort
        (.panic "interface conversion: interface \x7b\x7d is nil, not map[string]interface \x7b\x7d")
        { calls := [⟨.CreateRole "sys" "dev-1", ⟨.nil, some "permission denied"⟩⟩],
          resultC := [⟨"dev-1", "Error when Creating role", some "permission denied"⟩] } := by
  decide

/-- C12: `addDeviceToRole` issues exactly one call, `AddDeviceToRoles` for the
device with the one-element role list holding the device id. When the call
succeeds, or fails with a message containing "duplicate key value violates
unique constraint", it returns `nil` and sends nothing; for every other
failure it sends exactly one `ErrorLog` carrying the device id and the error,
and returns that error. -/
theorem addDeviceToRole_idempotent_membership (env : Env) (args : DeviceMigratorArgs)
    (device : Device) (w : World) :
    ((env.remote w.calls (.AddDeviceToRoles args.cbSystemKey device.Id [device.Id])).err = none ∨
        (∃ msg,
          (env.remote w.calls (.AddDeviceToRoles args.cbSystemKey device.Id [device.Id])).err
              = some msg ∧
            stringsContains msg "duplicate key value violates unique constraint" = true) →
      addDeviceToRole env args device w =
        .ret none
          { calls := w.calls ++
              [eventOf env w.calls (.AddDeviceToRoles args.cbSystemKey device.Id [device.Id])],
            resultC := w.resultC }) ∧
    (∀ msg,
      (env.remote w.calls (.AddDeviceToRoles args.cbSystemKey device.Id [device.Id])).err
          = some msg →
      stringsContains msg "duplicate key value violates unique constraint" = false →
      addDeviceToRole env args device w =
        .ret (some msg)
          { calls := w.calls ++
              [eventOf env w.calls (.AddDeviceToRoles args.cbSystemKey device.Id [device.Id])],
            resultC := w.resultC ++ [⟨device.Id, "Error when Creating role", some msg⟩] }) := by
  constructor
  · rintro (h | ⟨msg, h, hm⟩)
    · simp [addDeviceToRole, remoteCall, h, eventOf]
    · simp [addDeviceToRole, remoteCall, h, hm, eventOf]
  · intro msg h hm
    simp [addDeviceToRole, remoteCall, h, hm, eventOf, send]

/-- C12 at concrete inputs: a duplicate-membership failure is absorbed,
another failure is reported. -/
theorem addDeviceToRole_idempotent_membership_witness :
    (∃ msg,
        (memberEnv.remote World.init.calls (.AddDeviceToRoles "sys" "dev-1" ["dev-1"])).err
            = some msg ∧
          stringsContains msg "duplicate key value violates unique constraint" = true) ∧
      addDeviceToRole memberEnv roleArgs keyedDevice World.init =
        .ret none
          { calls :=
              [⟨.AddDeviceToRoles "sys" "dev-1" ["dev-1"],
                ⟨.nil, some "pq: duplicate key value violates unique constraint \"device_roles_pkey\""⟩⟩],
            resultC := [] } ∧
      (membershipFailsEnv.remote World.init.calls
          (.AddDeviceToRoles "sys" "dev-1" ["dev-1"])).err = some "role does not exist" ∧
      stringsContains "role does not exist" "duplicate key value violates unique constraint"
        = false ∧
      addDeviceToRole membershipFailsEnv roleArgs keyedDevice World.init =
        .ret (some "role does not exist")
          { calls :=
              [⟨.AddDeviceToRoles "sys" "dev-1" ["dev-1"], ⟨.nil, some "role does not exist"⟩⟩],
            resultC := [⟨"dev-1", "Error when Creating role", some "role does not exist"⟩] } :=
  ⟨⟨_, rfl, by decide⟩,
   (addDeviceToRole_idempotent_membership memberEnv roleArgs keyedDevice World.init).1
     (Or.inr ⟨_, rfl, by decide⟩),
   by decide, by decide,
   (addDeviceToRole_idempotent_membership membershipFailsEnv roleArgs keyedDevice World.init).2
     "role does not exist" (by decide) (by decide)⟩

/-! ### Transform -/

/-- C14: with no column-mapping file (`csvFile == ""`), `transform` returns
exactly the five entries name = device id, enabled = NOT blocked, type = the
label, allow_key_auth = false, allow_certificate_auth = true, whatever the
environment, so two calls on the same device and label return equal
representations. -/
theorem transform_without_mapping (env env' : Env) (device : Device) (deviceType : String) :
    transform env device deviceType "" =
        .ok [("name", .str device.Id), ("enabled", .bool (!device.Blocked)),
          ("type", .str deviceType), ("allow_key_auth", .bool false),
          ("allow_certificate_auth", .bool true)] ∧
      transform env device deviceType "" = transform env' device deviceType "" := by
  constructor <;> simp [transform]

/-! ### The unchecked type assertion of `createRoleForDevice` -/

/-- C16 (code evaluated at the failing inputs): `createRoleForDevice` does
not return when the role value that comes with an error is nil. With
`CreateRole` failing on the unique-name conflict and `GetRole` failing too,
it panics on the type assertion after both calls and the "Error when
retrieving role" entry; with `CreateRole` failing for another reason, the
panic ends the run of `migrateDevice` after the "Error when Creating role"
entry. -/
theorem createRoleForDevice_nil_role_panics :
    createRoleForDevice getRoleFailsEnv roleArgs keyedDevice World.init =
        .abort
          (.panic "interface conversion: interface \x7b\x7d is nil, not map[string]interface \x7b\x7d")
          { calls :=
              [⟨.CreateRole "sys" "dev-1", ⟨.nil, some "A role's name must be unique"⟩⟩,
               ⟨.GetRole "sys" "dev-1", ⟨.nil, some "role not found"⟩⟩],
            resultC := [⟨"dev-1", "Error when retrieving role", some "role not found"⟩] } ∧
      (∃ w, migrateDevice createRoleFailsEnv roleArgs keyedDevice World.init =
          .abort
            (.panic
              "interface conversion: interface \x7b\x7d is nil, not map[string]interface \x7b\x7d")
            w ∧
        w.resultC = [⟨"dev-1", "Error when Creating role", some "permission denied"⟩]) := by
  refine ⟨by decide, _, rfl, by decide⟩

/-! ### Batched fetch -/

theorem fetchBatchLoop_requested (src : Source) (pageSize : Int) (deviceIds : List String)
    (maxIterations : Int) (is : List Nat) :
    ∀ run : FetchRun,
      (fetchBatchLoop src pageSize deviceIds maxIterations is run).requested <+:
        run.requested ++ is.filterMap (batchDeviceIds pageSize deviceIds maxIterations) := by
  induction is with
  | nil => intro run; simp [fetchBatchLoop]
  | cons i rest ih =>
    intro run
    unfold fetchBatchLoop
    split
    · exact List.prefix_append _ _
    · rename_i batch hb
      have hpre : run.requested ++ [batch] <+:
          run.requested ++
            (i :: rest).filterMap (batchDeviceIds pageSize deviceIds maxIterations) := by
        rw [List.filterMap_cons_some hb]
        exact ⟨rest.filterMap (batchDeviceIds pageSize deviceIds maxIterations), by simp⟩
      split
      · exact hpre
      · exact hpre
      · split
        · exact hpre
        · rw [List.filterMap_cons_some hb]
          simpa using ih { requested := run.requested ++ [batch],
                           devices := run.devices ++ _, aborted := none }

theorem fetchBatchLoop_aborted (src : Source) (pageSize : Int) (deviceIds : List String)
    (maxIterations : Int) (is : List Nat) :
    ∀ run : FetchRun,
      (∃ i ∈ is, batchDeviceIds pageSize deviceIds maxIterations i = none) →
      (fetchBatchLoop src pageSize deviceIds maxIterations is run).aborted ≠ none := by
  induction is with
  | nil => intro run h; simp at h
  | cons i rest ih =>
    intro run h
    unfold fetchBatchLoop
    split
    · simp
    · rename_i batch hb
      have hrest : ∃ j ∈ rest, batchDeviceIds pageSize deviceIds maxIterations j = none := by
        obtain ⟨j, hj, hn⟩ := h
        rcases List.mem_cons.1 hj with rfl | hj
        · rw [hb] at hn; cases hn
        · exact ⟨j, hj, hn⟩
      split
      · simp
      · simp
      · split
        · simp
        · exact ih _ hrest

/-- C15 (code evaluated at the failing inputs): with page size 3 and the five
ids a, b, c, d, e the batches sliced are [a, b, c] and [e], so d is never
requested; with page size 2 they are [a, b], [d] and the empty batch, so c
and e are never requested; in every environment the batches handed to
`fetchDeviceList` are a prefix of these, so the skipped ids are requested in
none. With page size 2 and the four ids a, b, c, d, a multiple of the page
size, the last iteration slices `deviceIds[5:]` and panics with the slice
bound out of range after [a, b] and [d]; in every environment the run ends
early. -/
theorem fetchDevicesFromCSV_skips_ids_and_overruns :
    (fetchDevicesFromCSV consoleSource 3 ["a", "b", "c", "d", "e"]).requested
        = [["a", "b", "c"], ["e"]] ∧
      (fetchDevicesFromCSV consoleSource 2 ["a", "b", "c", "d", "e"]).requested
        = [["a", "b"], ["d"], []] ∧
      (fetchDevicesFromCSV consoleSource 2 ["a", "b", "c", "d", "e"]).requested.flatten
        ≠ ["a", "b", "c", "d", "e"] ∧
      (∀ src : Source,
        (fetchDevicesFromCSV src 2 ["a", "b", "c", "d", "e"]).requested <+:
          [["a", "b"], ["d"], []]) ∧
      fetchDevicesFromCSV consoleSource 2 ["a", "b", "c", "d"] =
        { requested := [["a", "b"], ["d"]],
          devices := [⟨"a", false, []⟩, ⟨"b", false, []⟩, ⟨"d", false, []⟩],
          aborted := some (.panic "slice bounds out of range") } ∧
      (∀ src : Source, (fetchDevicesFromCSV src 2 ["a", "b", "c", "d"]).aborted ≠ none) := by
  refine ⟨by decide, by decide, by decide, ?_, by decide, ?_⟩
  · intro src
    have h := fetchBatchLoop_requested src 2 ["a", "b", "c", "d", "e"] 3 (List.range 3)
      ⟨[], [], none⟩
    have he : (List.range 3).filterMap (batchDeviceIds 2 ["a", "b", "c", "d", "e"] 3)
        = [["a", "b"], ["d"], []] := by decide
    rw [he] at h
    exact h
  · intro src
    exact fetchBatchLoop_aborted src 2 ["a", "b", "c", "d"] 3 (List.range 3) ⟨[], [], none⟩
      ⟨2, by decide, by decide⟩

/-! ### Topic bindings -/

theorem addTopicsLoop_eq_bindInOrder (env : Env) (args : DeviceMigratorArgs) (device : Device)
    (roleId : String) (perm : Perm) (topics : List String) :
    ∀ w : World, addTopicsLoop env args device roleId perm topics w =
      bindInOrder env device
        (topics.map fun topic =>
          .AddTopicToRole args.cbSystemKey (stringsReplace topic topicToken device.Id)
            roleId perm) w := by
  induction topics with
  | nil => intro w; rfl
  | cons topic rest ih =>
    intro w
    simp only [addTopicsLoop, List.map_cons, bindInOrder]
    cases hE : (remoteCall env.remote
      (.AddTopicToRole args.cbSystemKey (stringsReplace topic topicToken device.Id)
        roleId perm) w).1.err with
    | none => exact ih _
    | some msg => rfl

theorem bindInOrder_append (env : Env) (device : Device) (xs ys : List Call) :
    ∀ w : World, bindInOrder env device (xs ++ ys) w =
      match bindInOrder env device xs w with
      | (some msg, w1) => (some msg, w1)
      | (none, w1) => bindInOrder env device ys w1 := by
  induction xs with
  | nil => intro w; rfl
  | cons c cs ih =>
    intro w
    simp only [List.cons_append, bindInOrder]
    cases hE : (remoteCall env.remote c w).1.err with
    | none => exact ih _
    | some msg => rfl

theorem replaced_topics (args : DeviceMigratorArgs) (device : Device) (roleId : String) :
    (subTopics.map fun topic =>
        Call.AddTopicToRole args.cbSystemKey (stringsReplace topic topicToken device.Id)
          roleId .PERM_READ) ++
      (pubTopics.map fun topic =>
        Call.AddTopicToRole args.cbSystemKey (stringsReplace topic topicToken device.Id)
          roleId .PERM_CREATE) = topicBindings args device roleId := by
  have h1 : "/devices/" ++ topicToken ++ "/commands/#" = "/devices/{device_id}/commands/#" := by
    decide
  have h2 : "/devices/" ++ topicToken ++ "/config" = "/devices/{device_id}/config" := by decide
  have h3 : "/devices/" ++ topicToken ++ "/errors" = "/devices/{device_id}/errors" := by decide
  have h4 : "/devices/" ++ topicToken ++ "/events/#" = "/devices/{device_id}/events/#" := by
    decide
  have h5 : "/devices/" ++ topicToken ++ "/state" = "/devices/{device_id}/state" := by decide
  have e1 : stringsReplace "/devices/{device_id}/commands/#" topicToken device.Id
      = "/devices/" ++ device.Id ++ "/commands/#" := by
    apply String.ext
    simp [stringsReplace, topicToken, replaceChars, List.isPrefixOf]
  have e2 : stringsReplace "/devices/{device_id}/config" topicToken device.Id
      = "/devices/" ++ device.Id ++ "/config" := by
    apply String.ext
    simp [stringsReplace, topicToken, replaceChars, List.isPrefixOf]
  have e3 : stringsReplace "/devices/{device_id}/errors" topicToken device.Id
      = "/devices/" ++ device.Id ++ "/errors" := by
    apply String.ext
    simp [stringsReplace, topicToken, replaceChars, List.isPrefixOf]
  have e4 : stringsReplace "/devices/{device_id}/events/#" topicToken device.Id
      = "/devices/" ++ device.Id ++ "/events/#" := by
    apply String.ext
    simp [stringsReplace, topicToken, replaceChars, List.isPrefixOf]
  have e5 : stringsReplace "/devices/{device_id}/state" topicToken device.Id
      = "/devices/" ++ device.Id ++ "/state" := by
    apply String.ext
    simp [stringsReplace, topicToken, replaceChars, List.isPrefixOf]
  simp only [subTopics, pubTopics, h1, h2, h3, h4, h5, List.map_cons, List.map_nil, e1, e2, e3,
    e4, e5, topicBindings, List.cons_append, List.nil_append]

theorem addTopicsToRole_eq_bindInOrder (env : Env) (args : DeviceMigratorArgs)
    (device : Device) (roleId : String) (w : World) :
    addTopicsToRole env args device roleId w =
      .ret (bindInOrder env device (topicBindings args device roleId) w).1
        (bindInOrder env device (topicBindings args device roleId) w).2 := by
  rw [← replaced_topics, bindInOrder_append]
  unfold addTopicsToRole
  simp only [addTopicsLoop_eq_bindInOrder]
  cases h1 : bindInOrder env device
    (subTopics.map fun topic =>
      Call.AddTopicToRole args.cbSystemKey (stringsReplace topic topicToken device.Id)
        roleId .PERM_READ) w with
  | mk e1 w1 =>
    cases e1 with
    | some msg => rfl
    | none =>
      simp only []
      cases h2 : bindInOrder env device
        (pubTopics.map fun topic =>
          Call.AddTopicToRole args.cbSystemKey (stringsReplace topic topicToken device.Id)
            roleId .PERM_CREATE) w1 with
      | mk e2 w2 =>
        cases e2 with
        | some msg => rfl
        | none => rfl

theorem issueAllOk_effects (env : Env) (cs : List Call) :
    ∀ w w1 : World, issueAllOk env cs w = some w1 →
      w1.resultC = w.resultC ∧
        ∃ evs, w1.calls = w.calls ++ evs ∧ evs.map (fun e => e.call) = cs := by
  induction cs with
  | nil =>
    intro w w1 h
    simp only [issueAllOk, Option.some.injEq] at h
    subst h
    exact ⟨rfl, [], by simp, rfl⟩
  | cons c cs ih =>
    intro w w1 h
    unfold issueAllOk at h
    split at h
    · obtain ⟨hr, evs, hc, hm⟩ := ih _ w1 h
      refine ⟨hr, ⟨c, env.remote w.calls c⟩ :: evs, ?_, ?_⟩
      · rw [hc]; simp [remoteCall]
      · simp [hm]
    · simp at h

theorem bindInOrder_skip (env : Env) (device : Device) (pre : List Call) :
    ∀ (rest : List Call) (w w1 : World), issueAllOk env pre w = some w1 →
      bindInOrder env device (pre ++ rest) w = bindInOrder env device rest w1 := by
  induction pre with
  | nil =>
    intro rest w w1 h
    simp only [issueAllOk, Option.some.injEq] at h
    subst h
    rfl
  | cons c cs ih =>
    intro rest w w1 h
    unfold issueAllOk at h
    split at h
    · rename_i hE
      simp only [List.cons_append, bindInOrder, hE]
      exact ih rest _ w1 h
    · simp at h

/-- C11: for every device and role id `roleId`, when the five bindings are
answered without error `addTopicsToRole` issues exactly the five
`AddTopicToRole` calls of `topicBindings` (read on commands, config, errors,
then create on events, state, all with `roleId`), in that order, sends
nothing and returns `nil`; when the bindings before the k-th (`pre`) are
answered without error and the k-th (`c`) fails with `msg`, the calls made are
exactly the k calls `pre` then `c`, exactly one `ErrorLog` {device id, "Error
when adding topic to role", `msg`} is sent and `msg` is returned. -/
theorem addTopicsToRole_binds_five_in_order (env : Env) (args : DeviceMigratorArgs)
    (device : Device) (roleId : String) (w : World) :
    (∀ w5 : World, issueAllOk env (topicBindings args device roleId) w = some w5 →
      addTopicsToRole env args device roleId w =
          .ret none { calls := w5.calls, resultC := w.resultC } ∧
        ∃ evs, w5.calls = w.calls ++ evs ∧ evs.length = 5 ∧
          evs.map (fun e => e.call) = topicBindings args device roleId) ∧
    (∀ (pre : List Call) (c : Call) (post : List Call) (w1 : World) (msg : String),
      topicBindings args device roleId = pre ++ c :: post →
      issueAllOk env pre w = some w1 →
      (env.remote w1.calls c).err = some msg →
      addTopicsToRole env args device roleId w =
          .ret (some msg)
            { calls := w1.calls ++ [eventOf env w1.calls c],
              resultC := w.resultC ++
                [⟨device.Id, "Error when adding topic to role", some msg⟩] } ∧
        ∃ evs, w1.calls = w.calls ++ evs ∧ evs.length = pre.length ∧
          evs.map (fun e => e.call) = pre) := by
  constructor
  · intro w5 h
    obtain ⟨hr, evs, hc, hm⟩ := issueAllOk_effects env _ w w5 h
    have hs := bindInOrder_skip env device _ [] w w5 h
    rw [List.append_nil] at hs
    refine ⟨?_, evs, hc, ?_, hm⟩
    · rw [addTopicsToRole_eq_bindInOrder, hs, ← hr]
      rfl
    · have := congrArg List.length hm
      simpa [topicBindings] using this
  · intro pre c post w1 msg hsplit hpre hfail
    obtain ⟨hr, evs, hc, hm⟩ := issueAllOk_effects env _ w w1 hpre
    refine ⟨?_, evs, hc, ?_, hm⟩
    · rw [addTopicsToRole_eq_bindInOrder, hsplit, bindInOrder_skip env device pre _ w w1 hpre]
      simp only [bindInOrder, remoteCall, hfail, send, eventOf, hr]
    · have := congrArg List.length hm
      simpa using this

/-- C11 at concrete inputs: all five bindings of `dev-1` succeed; and the
third binding (the errors topic) is refused after two successful ones. -/
theorem addTopicsToRole_binds_five_in_order_witness :
    addTopicsToRole okEnv roleArgs keyedDevice "r-1" World.init =
        .ret none
          { calls :=
              [⟨.AddTopicToRole "sys" "/devices/dev-1/commands/#" "r-1" .PERM_READ,
                 ⟨.map [("role_id", .str "r-1")], none⟩⟩,
               ⟨.AddTopicToRole "sys" "/devices/dev-1/config" "r-1" .PERM_READ,
                 ⟨.map [("role_id", .str "r-1")], none⟩⟩,
               ⟨.AddTopicToRole "sys" "/devices/dev-1/errors" "r-1" .PERM_READ,
                 ⟨.map [("role_id", .str "r-1")], none⟩⟩,
               ⟨.AddTopicToRole "sys" "/devices/dev-1/events/#" "r-1" .PERM_CREATE,
                 ⟨.map [("role_id", .str "r-1")], none⟩⟩,
               ⟨.AddTopicToRole "sys" "/devices/dev-1/state" "r-1" .PERM_CREATE,
                 ⟨.map [("role_id", .str "r-1")], none⟩⟩],
            resultC := [] } ∧
      addTopicsToRole errorsTopicFailsEnv roleArgs keyedDevice "r-1" World.init =
        .ret (some "topic refused")
          { calls :=
              [⟨.AddTopicToRole "sys" "/devices/dev-1/commands/#" "r-1" .PERM_READ, ⟨.nil, none⟩⟩,
               ⟨.AddTopicToRole "sys" "/devices/dev-1/config" "r-1" .PERM_READ, ⟨.nil, none⟩⟩,
               ⟨.AddTopicToRole "sys" "/devices/dev-1/errors" "r-1" .PERM_READ,
                 ⟨.nil, some "topic refused"⟩⟩],
            resultC := [⟨"dev-1", "Error when adding topic to role", some "topic refused"⟩] } :=
  ⟨((addTopicsToRole_binds_five_in_order okEnv roleArgs keyedDevice "r-1" World.init).1
      ⟨[⟨.AddTopicToRole "sys" "/devices/dev-1/commands/#" "r-1" .PERM_READ,
           ⟨.map [("role_id", .str "r-1")], none⟩⟩,
         ⟨.AddTopicToRole "sys" "/devices/dev-1/config" "r-1" .PERM_READ,
           ⟨.map [("role_id", .str "r-1")], none⟩⟩,
         ⟨.AddTopicToRole "sys" "/devices/dev-1/errors" "r-1" .PERM_READ,
           ⟨.map [("role_id", .str "r-1")], none⟩⟩,
         ⟨.AddTopicToRole "sys" "/devices/dev-1/events/#" "r-1" .PERM_CREATE,
           ⟨.map [("role_id", .str "r-1")], none⟩⟩,
         ⟨.AddTopicToRole "sys" "/devices/dev-1/state" "r-1" .PERM_CREATE,
           ⟨.map [("role_id", .str "r-1")], none⟩⟩], []⟩
      (by decide)).1,
   ((addTopicsToRole_binds_five_in_order errorsTopicFailsEnv roleArgs keyedDevice "r-1"
        World.init).2
      [.AddTopicToRole "sys" "/devices/dev-1/commands/#" "r-1" .PERM_READ,
       .AddTopicToRole "sys" "/devices/dev-1/config" "r-1" .PERM_READ]
      (.AddTopicToRole "sys" "/devices/dev-1/errors" "r-1" .PERM_READ)
      [.AddTopicToRole "sys" "/devices/dev-1/events/#" "r-1" .PERM_CREATE,
       .AddTopicToRole "sys" "/devices/dev-1/state" "r-1" .PERM_CREATE]
      ⟨[⟨.AddTopicToRole "sys" "/devices/dev-1/commands/#" "r-1" .PERM_READ, ⟨.nil, none⟩⟩,
        ⟨.AddTopicToRole "sys" "/devices/dev-1/config" "r-1" .PERM_READ, ⟨.nil, none⟩⟩], []⟩
      "topic refused" (by decide) (by decide) (by decide)).1⟩

/-! ### Binding with a fetched role -/

theorem createDeviceCredentialsLoop_calls (env : Env) (args : DeviceMigratorArgs)
    (device : Device) (creds : List DeviceCredential) :
    ∀ (err0 err : GoError) (w w1 : World),
      createDeviceCredentialsLoop env args device creds err0 w = .ret err w1 →
      ∀ e ∈ w1.calls, e ∈ w.calls ∨ e.call.isRoleCall = false := by
  induction creds with
  | nil =>
    intro err0 err w w1 h e he
    simp only [createDeviceCredentialsLoop, Res.ret.injEq] at h
    obtain ⟨_, rfl⟩ := h
    exact Or.inl he
  | cons cred rest ih =>
    intro err0 err w w1 h e he
    unfold createDeviceCredentialsLoop at h
    cases hc : createDeviceCredential env args device.Id cred w with
    | abort why w0 => simp [hc] at h
    | ret r w0 =>
      obtain ⟨_, e0, hce, ex, f, hcall⟩ :=
        createDeviceCredential_effects env args device.Id cred w w0 r hc
      have step : ∀ e ∈ w0.calls, e ∈ w.calls ∨ e.call.isRoleCall = false := by
        intro e he
        rw [hce] at he
        simp only [List.mem_append, List.mem_singleton] at he
        rcases he with he | rfl
        · exact Or.inl he
        · exact Or.inr (by rw [hcall]; rfl)
      rw [hc, Res.bind_ret] at h
      cases hE : r.err with
      | some msg =>
        simp only [hE, Res.ret.injEq] at h
        obtain ⟨_, rfl⟩ := h
        exact step e he
      | none =>
        simp only [hE] at h
        rcases ih none err w0 w1 h e he with h0 | h0
        · exact step e h0
        · exact Or.inr h0

theorem createDeviceCredentials_calls (env : Env) (args : DeviceMigratorArgs)
    (device : Device) (err : GoError) (w w1 : World)
    (h : createDeviceCredentials env args device w = .ret err w1) :
    ∀ e ∈ w1.calls, e ∈ w.calls ∨ e.call.isRoleCall = false := by
  have step : ∀ e ∈ (deleteDeviceCreds env args device.Id w).2.calls,
      e ∈ w.calls ∨ e.call.isRoleCall = false := by
    intro e he
    simp only [deleteDeviceCreds, remoteCall, List.mem_append, List.mem_singleton] at he
    rcases he with he | rfl
    · exact Or.inl he
    · exact Or.inr rfl
  unfold createDeviceCredentials at h
  cases hd : deleteDeviceCreds env args device.Id w with
  | mk r w0 =>
    rw [hd] at h step
    cases hE : r.err with
    | some msg =>
      simp only [hE, Res.ret.injEq] at h
      obtain ⟨_, rfl⟩ := h
      exact step
    | none =>
      simp only [hE] at h
      intro e he
      rcases createDeviceCredentialsLoop_calls env args device _ none err w0 w1 h e he
        with h0 | h0
      · exact step e h0
      · exact Or.inr h0

theorem bindInOrder_calls (env : Env) (device : Device) (cs : List Call) :
    ∀ w : World, ∃ evs, (bindInOrder env device cs w).2.calls = w.calls ++ evs ∧
      ∀ e ∈ evs, e.call ∈ cs := by
  induction cs with
  | nil => intro w; exact ⟨[], by simp [bindInOrder], by simp⟩
  | cons c cs ih =>
    intro w
    unfold bindInOrder
    cases hE : (remoteCall env.remote c w).1.err with
    | some msg =>
      exact ⟨[⟨c, env.remote w.calls c⟩], by simp [send, remoteCall], by simp⟩
    | none =>
      obtain ⟨evs, hc, hm⟩ := ih (remoteCall env.remote c w).2
      refine ⟨⟨c, env.remote w.calls c⟩ :: evs, ?_, ?_⟩
      · simp only [hc]; simp [remoteCall]
      · intro e he
        simp only [List.mem_cons] at he ⊢
        rcases he with rfl | he
        · exact Or.inl rfl
        · exact Or.inr (hm e he)

theorem bindInOrder_calls_cons (env : Env) (device : Device) (c : Call) (cs : List Call)
    (w : World) :
    ∃ evs, (bindInOrder env device (c :: cs) w).2.calls = w.calls ++ eventOf env w.calls c :: evs ∧
      ∀ e ∈ evs, e.call ∈ cs := by
  unfold bindInOrder
  cases hE : (remoteCall env.remote c w).1.err with
  | some msg => exact ⟨[], by simp [send, remoteCall, eventOf], by simp⟩
  | none =>
    obtain ⟨evs, hc, hm⟩ := bindInOrder_calls env device cs (remoteCall env.remote c w).2
    exact ⟨evs, by simp only [hc]; simp [remoteCall, eventOf], hm⟩

theorem addDeviceToRole_calls (env : Env) (args : DeviceMigratorArgs) (device : Device)
    (w : World) :
    ∃ err w1, addDeviceToRole env args device w = .ret err w1 ∧
      w1.calls = w.calls ++
        [eventOf env w.calls (.AddDeviceToRoles args.cbSystemKey device.Id [device.Id])] := by
  unfold addDeviceToRole
  cases hE : (env.remote w.calls (.AddDeviceToRoles args.cbSystemKey device.Id [device.Id])).err
    with
  | none =>
    simp only [remoteCall, hE]
    exact ⟨_, _, rfl, rfl⟩
  | some msg =>
    by_cases hm : stringsContains msg "duplicate key value violates unique constraint" = true
    · simp only [remoteCall, hE, hm, Bool.not_true, Bool.false_eq_true, if_false]
      exact ⟨_, _, rfl, rfl⟩
    · simp only [remoteCall, hE, hm, Bool.not_false, if_true]
      exact ⟨_, _, rfl, rfl⟩

theorem createRoleForDevice_fetches (env : Env) (args : DeviceMigratorArgs) (device : Device)
    (w : World) (m : GoMap) (msg : String)
    (hC : (env.remote w.calls (.CreateRole args.cbSystemKey device.Id)).err = some msg)
    (hM : stringsContains msg "A role's name must be unique" = true)
    (hG : env.remote
        (w.calls ++ [eventOf env w.calls (.CreateRole args.cbSystemKey device.Id)])
        (.GetRole args.cbSystemKey device.Id) = ⟨.map m, none⟩) :
    createRoleForDevice env args device w =
      .ret (m, none)
        { calls := w.calls ++
            [eventOf env w.calls (.CreateRole args.cbSystemKey device.Id),
             eventOf env
               (w.calls ++ [eventOf env w.calls (.CreateRole args.cbSystemKey device.Id)])
               (.GetRole args.cbSystemKey device.Id)],
          resultC := w.resultC } := by
  simp only [eventOf] at hG ⊢
  simp [createRoleForDevice, remoteCall, hC, hM, hG, assertMap]

theorem roleIdOf_known {α : Type} (m : GoMap) (r : String) (w : World) (k : String → Res α)
    (hId : m.lookup "role_id" = some (.str r) ∨
      (m.lookup "role_id" = none ∧ m.lookup "ID" = some (.str r))) :
    roleIdOf m w k = k r := by
  rcases hId with h | ⟨h1, h2⟩
  · simp [roleIdOf, h, assertString]
  · simp [roleIdOf, h1, h2, assertString]

theorem topicBindings_roleId (args : DeviceMigratorArgs) (device : Device) (r : String)
    (c : Call) (hc : c ∈ topicBindings args device r) (k t r' : String) (p : Perm)
    (h : c = .AddTopicToRole k t r' p) : r' = r := by
  subst h
  simp only [topicBindings, List.mem_cons, List.mem_singleton, Call.AddTopicToRole.injEq,
    List.not_mem_nil, or_false] at hc
  rcases hc with h | h | h | h | h <;> exact h.2.2.1

/-- C13: in a run of `migrateDevice` that reaches role creation (upsert and
credential sync succeeded, `createDeviceRole` on), when `CreateRole` fails
with "A role's name must be unique" and `GetRole` returns a role map carrying
the identifier `r` under "role_id", or under "ID" when "role_id" is absent,
the run goes on to topic binding: the call right after the fetch is the first
`AddTopicToRole`, with role id `r`; when the topic bindings succeed it goes on
to membership binding: the last call of the run is `AddDeviceToRoles`; and
every `AddTopicToRole` call of the run carries role id `r`. -/
theorem migrateDevice_binds_fetched_role (env : Env) (args : DeviceMigratorArgs)
    (device : Device) (w1 w2 : World) (m : GoMap) (r msg : String)
    (hU : createOrUpdateDevice env args device World.init = .ret none w1)
    (hK : args.updatePublicKeys = true) (hN : device.Credentials.length > 0)
    (hS : createDeviceCredentials env args device w1 = .ret none w2)
    (hR : args.createDeviceRole = true)
    (hC : (env.remote w2.calls (.CreateRole args.cbSystemKey device.Id)).err = some msg)
    (hM : stringsContains msg "A role's name must be unique" = true)
    (hG : env.remote
        (w2.calls ++ [eventOf env w2.calls (.CreateRole args.cbSystemKey device.Id)])
        (.GetRole args.cbSystemKey device.Id) = ⟨.map m, none⟩)
    (hId : m.lookup "role_id" = some (.str r) ∨
      (m.lookup "role_id" = none ∧ m.lookup "ID" = some (.str r))) :
    (∃ evs, (migrateDevice env args device World.init).world.calls =
        (fetchedRoleWorld env args device w2).calls ++
          eventOf env (fetchedRoleWorld env args device w2).calls
            (.AddTopicToRole args.cbSystemKey ("/devices/" ++ device.Id ++ "/commands/#") r
              .PERM_READ) :: evs) ∧
    (∀ w5 : World,
      addTopicsToRole env args device r (fetchedRoleWorld env args device w2) = .ret none w5 →
      (migrateDevice env args device World.init).world.calls =
        w5.calls ++
          [eventOf env w5.calls (.AddDeviceToRoles args.cbSystemKey device.Id [device.Id])]) ∧
    (∀ e ∈ (migrateDevice env args device World.init).world.calls,
      ∀ (k t r' : String) (p : Perm), e.call = .AddTopicToRole k t r' p → r' = r) := by
  have hrole := createRoleForDevice_fetches env args device w2 m msg hC hM hG
  have hmig : migrateDevice env args device World.init =
      (addTopicsToRole env args device r (fetchedRoleWorld env args device w2)).bind
        fun err w =>
          match err with
          | some _ => .ret () w
          | none =>
            (addDeviceToRole env args device w).bind fun err w =>
              match err with
              | some _ => .ret () w
              | none => .ret () (send ErrorLog.empty w) := by
    unfold migrateDevice
    rw [hU, Res.bind_ret, if_pos ⟨rfl, hK, hN⟩, hS, Res.bind_ret]
    simp only [hR, if_true]
    rw [hrole, Res.bind_ret]
    simp only []
    rw [roleIdOf_known m r _ _ hId]
    rfl
  obtain ⟨evs, hcalls, hmem⟩ := bindInOrder_calls_cons env device
    (.AddTopicToRole args.cbSystemKey ("/devices/" ++ device.Id ++ "/commands/#") r .PERM_READ)
    [.AddTopicToRole args.cbSystemKey ("/devices/" ++ device.Id ++ "/config") r .PERM_READ,
     .AddTopicToRole args.cbSystemKey ("/devices/" ++ device.Id ++ "/errors") r .PERM_READ,
     .AddTopicToRole args.cbSystemKey ("/devices/" ++ device.Id ++ "/events/#") r .PERM_CREATE,
     .AddTopicToRole args.cbSystemKey ("/devices/" ++ device.Id ++ "/state") r .PERM_CREATE]
    (fetchedRoleWorld env args device w2)
  have htop : addTopicsToRole env args device r (fetchedRoleWorld env args device w2) =
      .ret (bindInOrder env device (topicBindings args device r)
          (fetchedRoleWorld env args device w2)).1
        (bindInOrder env device (topicBindings args device r)
          (fetchedRoleWorld env args device w2)).2 :=
    addTopicsToRole_eq_bindInOrder env args device r _
  change (bindInOrder env device (topicBindings args device r)
    (fetchedRoleWorld env args device w2)).2.calls = _ at hcalls
  generalize bindInOrder env device (topicBindings args device r)
    (fetchedRoleWorld env args device w2) = B at htop hcalls
  obtain ⟨err, w6, hadd, hac⟩ := addDeviceToRole_calls env args device B.2
  have hfinal : (migrateDevice env args device World.init).world.calls = B.2.calls ∨
      (B.1 = none ∧
        (migrateDevice env args device World.init).world.calls =
          B.2.calls ++
            [eventOf env B.2.calls
              (.AddDeviceToRoles args.cbSystemKey device.Id [device.Id])]) := by
    rw [hmig, htop, Res.bind_ret]
    cases hp : B.1 with
    | some e1 => exact Or.inl rfl
    | none =>
      refine Or.inr ⟨rfl, ?_⟩
      simp only [hadd, Res.bind_ret]
      cases err with
      | some e2 => exact hac
      | none => exact hac
  refine ⟨?_, ?_, ?_⟩
  · rcases hfinal with h | ⟨_, h⟩
    · exact ⟨evs, by rw [h, hcalls]⟩
    · refine ⟨evs ++ [eventOf env B.2.calls
        (.AddDeviceToRoles args.cbSystemKey device.Id [device.Id])], ?_⟩
      rw [h, hcalls]
      simp
  · intro w5 h5
    rw [htop] at h5
    simp only [Res.ret.injEq] at h5
    obtain ⟨h51, h52⟩ := h5
    rcases hfinal with h | ⟨_, h⟩
    · exfalso
      have hlen := congrArg List.length h
      rw [hmig, htop, Res.bind_ret, h51] at hlen
      simp only [hadd, Res.bind_ret] at hlen
      have hl6 : w6.calls.length = B.2.calls.length + 1 := by
        rw [hac]; simp
      cases err with
      | some e2 => simp only [Res.world] at hlen; omega
      | none => simp only [Res.world, send] at hlen; omega
    · rw [h, h52]
  · intro e he k t r' p hcall
    have hin : e ∈ B.2.calls ∨
        e = eventOf env B.2.calls
          (.AddDeviceToRoles args.cbSystemKey device.Id [device.Id]) := by
      rcases hfinal with h | ⟨_, h⟩
      · rw [h] at he; exact Or.inl he
      · rw [h] at he; simpa using he
    rcases hin with h | h
    · rw [hcalls] at h
      simp only [fetchedRoleWorld, List.mem_append, List.mem_cons, List.mem_singleton,
        List.not_mem_nil, or_false] at h
      rcases h with (h | h | h) | h | h
      · exfalso
        rcases createDeviceCredentials_calls env args device none w1 w2 hS e h with h0 | h0
        · rcases (createOrUpdateDevice_effects env args device World.init w1 none hU).1 e h0
            with h1 | h1
          · simp [World.init] at h1
          · rw [hcall] at h1
            simp [Call.isRoleCall] at h1
        · rw [hcall] at h0
          simp [Call.isRoleCall] at h0
      · rw [h] at hcall; simp [eventOf] at hcall
      · rw [h] at hcall; simp [eventOf] at hcall
      · refine topicBindings_roleId args device r e.call ?_ k t r' p hcall
        rw [h]
        simp [eventOf, topicBindings]
      · refine topicBindings_roleId args device r e.call ?_ k t r' p hcall
        simp only [topicBindings]
        exact List.mem_cons_of_mem _ (hmem e h)
    · rw [h] at hcall; simp [eventOf] at hcall

/-- C13 at a concrete input (Scenario D): the role of `dev-1` exists, the
fetch returns it with identifier `r-9` under key `ID`; all five topic
bindings and the membership binding follow, with role id `r-9`. -/
theorem migrateDevice_binds_fetched_role_witness :
    createOrUpdateDevice roleExistsEnv roleArgs singleKeyDevice World.init =
        .ret none ⟨[⟨.CreateDevice "sys" "dev-1" bareDeviceData, ⟨.nil, none⟩⟩], []⟩ ∧
      createDeviceCredentials roleExistsEnv roleArgs singleKeyDevice
          ⟨[⟨.CreateDevice "sys" "dev-1" bareDeviceData, ⟨.nil, none⟩⟩], []⟩ =
        .ret none ⟨singleKeySynced, []⟩ ∧
      stringsContains "A role's name must be unique" "A role's name must be unique" = true ∧
      ([("name", Val.str "dev-1"), ("ID", Val.str "r-9")] : GoMap).lookup "role_id" = none ∧
      ([("name", Val.str "dev-1"), ("ID", Val.str "r-9")] : GoMap).lookup "ID"
        = some (.str "r-9") ∧
      (∀ e ∈ (migrateDevice roleExistsEnv roleArgs singleKeyDevice World.init).world.calls,
        ∀ (k t r' : String) (p : Perm), e.call = .AddTopicToRole k t r' p → r' = "r-9") :=
  ⟨by decide, by decide, by decide, by decide, by decide,
   (migrateDevice_binds_fetched_role roleExistsEnv roleArgs singleKeyDevice
      ⟨[⟨.CreateDevice "sys" "dev-1" bareDeviceData, ⟨.nil, none⟩⟩], []⟩
      ⟨singleKeySynced, []⟩ [("name", .str "dev-1"), ("ID", .str "r-9")] "r-9"
      "A role's name must be unique"
      (by decide) (by decide) (by decide) (by decide) (by decide) (by decide) (by decide)
      (by decide) (Or.inr ⟨by decide, by decide⟩)).2.2⟩

end Migration
